import Mathlib

/-!
Verification development for the SAP master-data harmonization engine
(material and process-order pipelines).

The engine's tabular operations (PySpark DataFrames) are shallowly embedded:
a dataset is a list of rows over a declared column list, a row is an
association list from column name to an optional (nullable) value.

Modelling conventions, each mirroring the source:
* Column values are `Option Val` (`none` = SQL NULL); numeric values
  (including the source's DoubleType prices) are modelled as integers.
* Column-name comparison is exact (the pipelines use consistently cased
  names throughout; Spark's optional case-insensitive resolution is not
  modelled).
* An operation whose column expressions reference a column absent from the
  dataset fails (Spark analysis error); such operations return
  `Except String DataFrame`.
* Casts are total: a value that fails to cast becomes NULL, never an error.
* `concat_ws` skips NULL arguments; grouping/deduplication treats NULL keys
  as equal, while join key equality treats NULL as matching nothing.
-/

/-- A column value: strings, or integers (modelling the source's
numeric, date-number and timestamp values). -/
inductive Val where
  | vStr (s : String)
  | vInt (n : Int)
deriving DecidableEq, Repr

/-- Declared column types, mirroring the pyspark types used by the
schema catalog (`schemas.py`). Numeric values are modelled as integers,
so `dDouble` casts behave like `dInt` casts. -/
inductive DType where
  | dString
  | dInt
  | dDouble
  | dDate
  | dTimestamp
deriving DecidableEq, Repr

/-- A schema field: name plus declared type (a column declaration). -/
structure Col where
  name : String
  dtype : DType
deriving DecidableEq, Repr

/-- A schema is an ordered field list (a `StructType`). -/
abbrev Schema := List Col

/-- A row: association list from column name to nullable value. -/
abbrev Row := List (String × Option Val)

/-- A dataset: declared columns plus rows. -/
structure DataFrame where
  cols : List Col
  rows : List Row
deriving DecidableEq, Repr

/-- The dataset's column-name list (`df.columns`). -/
def DataFrame.colNames (df : DataFrame) : List String :=
  df.cols.map Col.name

/-- Look up a column value in a row; absent keys read as NULL. -/
def getVal (r : Row) (n : String) : Option Val :=
  match r.find? (fun p => p.1 == n) with
  | some p => p.2
  | none => none

/-- Set (or add) a column value in a row. -/
def setVal (r : Row) (n : String) (v : Option Val) : Row :=
  (n, v) :: r.filter (fun p => p.1 != n)

/-- Render a value as a string (used by string casts and `concat_ws`). -/
def valString : Val → String
  | .vStr s => s
  | .vInt n => toString n

/-- Split a character list on the hyphen separator. -/
def splitDash : List Char → List (List Char)
  | [] => [[]]
  | c :: rest =>
    if c = '-' then [] :: splitDash rest
    else
      match splitDash rest with
      | g :: gs => (c :: g) :: gs
      | [] => [[c]]

/-- Parse a non-empty all-digit character list as a natural number. -/
def digitsToNat (acc : Nat) : List Char → Option Nat
  | [] => some acc
  | c :: rest =>
    if 48 ≤ c.toNat ∧ c.toNat ≤ 57 then digitsToNat (acc * 10 + (c.toNat - 48)) rest
    else none

/-- Parse a digit string; empty or non-digit input gives `none`. -/
def parseNatStr (cs : List Char) : Option Nat :=
  if cs.isEmpty then none else digitsToNat 0 cs

/-- Parse an optionally-signed digit string as an integer. -/
def parseIntStr (s : String) : Option Int :=
  match s.data with
  | '-' :: rest => (parseNatStr rest).map (fun n => -(n : Int))
  | cs => (parseNatStr cs).map (fun n => (n : Int))

/-- Parse a `yyyy-MM-dd` date string into a civil day number
(days since 1970-01-01, standard days-from-civil formula).
Unparsable strings give `none`. -/
def parseDate (s : String) : Option Int :=
  match (splitDash s.data).map parseNatStr with
  | [some y, some m, some d] =>
    if 1 ≤ m ∧ m ≤ 12 ∧ 1 ≤ d ∧ d ≤ 31 then
      let yi : Int := if m ≤ 2 then (y : Int) - 1 else (y : Int)
      let mp : Int := if m ≤ 2 then (m : Int) + 9 else (m : Int) - 3
      let era : Int := yi / 400
      let yoe : Int := yi - era * 400
      let doy : Int := (153 * mp + 2) / 5 + (d : Int) - 1
      let doe : Int := yoe * 365 + yoe / 4 - yoe / 100 + doy
      some (era * 146097 + doe - 719468)
    else none
  | _ => none

/-- Cast a nullable value to a declared type; failures become NULL
(engine-standard cast semantics). -/
def castVal (t : DType) (v : Option Val) : Option Val :=
  match v with
  | none => none
  | some x =>
    match t, x with
    | .dString, w => some (.vStr (valString w))
    | .dInt, .vInt n => some (.vInt n)
    | .dInt, .vStr s => (parseIntStr s).map Val.vInt
    | .dDouble, .vInt n => some (.vInt n)
    | .dDouble, .vStr s => (parseIntStr s).map Val.vInt
    | .dDate, .vStr s => (parseDate s).map Val.vInt
    | .dDate, .vInt _ => none
    | .dTimestamp, .vStr s => (parseDate s).map Val.vInt
    | .dTimestamp, .vInt _ => none

/-- Day difference of two date-string values (`F.datediff`): both
arguments are cast to dates; NULL or unparsable input gives NULL. -/
def dateDiff (a b : Option Val) : Option Val :=
  match a, b with
  | some (.vStr s1), some (.vStr s2) =>
    match parseDate s1, parseDate s2 with
    | some d1, some d2 => some (.vInt (d1 - d2))
    | _, _ => none
  | _, _ => none

/-- Concatenate values with a separator, skipping NULLs (`F.concat_ws`);
never NULL itself. -/
def concatWsVal (sep : String) (vs : List (Option Val)) : Val :=
  .vStr (String.intercalate sep (vs.filterMap (Option.map valString)))

/-- First non-NULL value (`F.coalesce`). -/
def coalesceVal (vs : List (Option Val)) : Option Val :=
  match vs with
  | [] => none
  | some v :: _ => some v
  | none :: rest => coalesceVal rest

/-- SQL comparison on same-typed values: strings lexicographically,
integers numerically. Distinct constructors are ordered by a fixed rank
(a Spark column is single-typed, so mixed comparisons never arise in the
source). Total: for all `x y`, `valGeB x y = !valLtB y x` style facts hold. -/
def charListLtB : List Char → List Char → Bool
  | [], [] => false
  | [], _ :: _ => true
  | _ :: _, [] => false
  | a :: as, b :: bs =>
    if a.toNat < b.toNat then true
    else if b.toNat < a.toNat then false
    else charListLtB as bs

/-- Lexicographic string comparison by code point (`String` order). -/
def strLtB (a b : String) : Bool :=
  charListLtB a.data b.data

/-- Strict less-than on values. -/
def valLtB : Val → Val → Bool
  | .vStr a, .vStr b => strLtB a b
  | .vInt a, .vInt b => a < b
  | .vStr _, .vInt _ => true
  | .vInt _, .vStr _ => false

/-- Greater-or-equal comparison on values (`>=` in Spark SQL). -/
def valGeB (a b : Val) : Bool := !valLtB a b

/-- Strict descending-order comparison on nullable values, NULLs last
(Spark `F.desc` default null ordering). -/
def ordGtB : Option Val → Option Val → Bool
  | some x, some y => valLtB y x
  | some _, none => true
  | none, _ => false

/-- Analysis check: every listed column must exist in the dataset,
otherwise the operation fails (Spark unresolved-column error). -/
def requireCols (df : DataFrame) (ns : List String) : Except String Unit :=
  if ns.all (fun n => df.colNames.contains n) then .ok ()
  else .error "cannot resolve a referenced column"

/-- Declared-column update for `withColumn`: replace the type of an
existing column of that name, else append the column. -/
def updateCols (cs : List Col) (n : String) (t : DType) : List Col :=
  if cs.any (fun c => c.name == n) then
    cs.map (fun c => if c.name == n then { name := n, dtype := t } else c)
  else cs ++ [{ name := n, dtype := t }]

/-- `df.withColumn(n, e)` once its references are resolved: `t` is the
static type of the expression, `f` its per-row value. -/
def withColumnD (df : DataFrame) (n : String) (t : DType) (f : Row → Option Val) :
    DataFrame :=
  { cols := updateCols df.cols n t, rows := df.rows.map (fun r => setVal r n (f r)) }

/-- `df.filter(p)` with a per-row predicate. -/
def filterD (df : DataFrame) (p : Row → Bool) : DataFrame :=
  { cols := df.cols, rows := df.rows.filter p }

/-- `df.withColumnRenamed(old, new)`: a no-op when `old` is absent. -/
def renameCol (df : DataFrame) (old new : String) : DataFrame :=
  { cols := df.cols.map (fun c => if c.name == old then { c with name := new } else c)
    rows := df.rows.map (List.map (fun p => if p.1 == old then (new, p.2) else p)) }

/-- Schema Enforcer (`enforce_schema`): for each schema field whose name
occurs in `df.columns` (exact membership, mirroring the Python `in` check),
select that column cast to the declared type, in schema order; other schema
fields are silently omitted and unlisted input columns are dropped. -/
def enforce_schema (df : DataFrame) (schema : Schema) : DataFrame :=
  let kept := schema.filter (fun f => df.colNames.contains f.name)
  { cols := kept
    rows := df.rows.map (fun r =>
      kept.map (fun f => (f.name, castVal f.dtype (getVal r f.name)))) }

/-- Output Normalizer missing-column fill (`add_missing_columns`): every
schema field whose name is absent from `df.columns` is appended as a NULL
column cast to *string* (the source's `F.lit(None).cast("string")`),
regardless of the field's declared type. -/
def add_missing_columns (df : DataFrame) (schema : Schema) : DataFrame :=
  let missing := schema.filter (fun f => !(df.colNames.contains f.name))
  missing.foldl (fun d f => withColumnD d f.name .dString (fun _ => none)) df

/-- Output Normalizer rename step (`rename_and_select`): apply each rename
of the mapping in order; when `select` is true keep only the mapping's
target columns, otherwise keep every column. -/
def rename_and_select (df : DataFrame) (mapping : List (String × String))
    (select : Bool) : DataFrame :=
  let renamed := mapping.foldl (fun d p => renameCol d p.1 p.2) df
  if select then
    let keep := mapping.map Prod.snd
    { cols := renamed.cols.filter (fun c => keep.contains c.name)
      rows := renamed.rows.map (fun r =>
        (renamed.cols.filter (fun c => keep.contains c.name)).map
          (fun c => (c.name, getVal r c.name))) }
  else renamed

/-- Row equality on a column subset (NULL keys compare equal, as in
Spark `dropDuplicates` and window partitioning). -/
def rowEqOn (ns : List String) (r s : Row) : Bool :=
  ns.all (fun n => getVal r n == getVal s n)

/-- One step of duplicate dropping: keep `r` only when no kept row
already agrees with it on the listed columns. -/
def dedupStep (ns : List String) (acc : List Row) (r : Row) : List Row :=
  if acc.any (fun s => rowEqOn ns s r) then acc else acc ++ [r]

/-- `df.dropDuplicates(ns)`: keep the first row of each group of rows
agreeing on the listed columns (the source fixes no survivor; first
occurrence is the deterministic choice modelled here). -/
def dropDupOn (df : DataFrame) (ns : List String) : DataFrame :=
  { cols := df.cols, rows := df.rows.foldl (dedupStep ns) [] }

/-- `df.dropDuplicates()` over all columns. -/
def dropDupAll (df : DataFrame) : DataFrame :=
  dropDupOn df df.colNames

/-- Join-key match for an equi-join column list: NULL keys match nothing. -/
def matchesRow (ks : List String) (lr rr : Row) : Bool :=
  ks.all (fun k =>
    match getVal lr k, getVal rr k with
    | some a, some b => a == b
    | _, _ => false)

/-- The right-side columns a USING-join appends (all right columns except
the join keys). -/
def extraCols (r : DataFrame) (ks : List String) : List Col :=
  r.cols.filter (fun c => !(ks.contains c.name))

/-- An output row of a left join: the left row's columns, then the
appended right columns (values from the matched right row, or NULL when
the left row found no match). -/
def joinedRow (lNames : List String) (extras : List Col) (lr : Row)
    (rrOpt : Option Row) : Row :=
  lNames.map (fun n => (n, getVal lr n)) ++
    extras.map (fun c =>
      (c.name, match rrOpt with | some rr => getVal rr c.name | none => none))

/-- Left-preserving equi-join on named key columns
(`l.join(r, ks, "left")`): each left row yields one output row per
matching right row, or a single NULL-extended row when nothing matches. -/
def leftJoin (l r : DataFrame) (ks : List String) : DataFrame :=
  let extras := extraCols r ks
  { cols := l.cols ++ extras
    rows := l.rows.flatMap (fun lr =>
      let ms := r.rows.filter (fun rr => matchesRow ks lr rr)
      if ms.isEmpty then [joinedRow l.colNames extras lr none]
      else ms.map (fun rr => joinedRow l.colNames extras lr (some rr))) }

/-- Schema catalog: General Material Data (MARA). -/
def MARA_SCHEMA : Schema :=
  [⟨"MANDT", .dString⟩, ⟨"MATNR", .dString⟩, ⟨"MEINS", .dString⟩,
   ⟨"global_material_number", .dString⟩]

/-- Schema catalog: Material Valuation (MBEW). -/
def MBEW_SCHEMA : Schema :=
  [⟨"MANDT", .dString⟩, ⟨"MATNR", .dString⟩, ⟨"BWKEY", .dString⟩,
   ⟨"VPRSV", .dString⟩, ⟨"VERPR", .dDouble⟩, ⟨"STPRS", .dDouble⟩,
   ⟨"PEINH", .dDouble⟩, ⟨"BKLAS", .dString⟩]

/-- Schema catalog: Plant Data for Material (MARC). -/
def MARC_SCHEMA : Schema :=
  [⟨"SOURCE_SYSTEM_ERP", .dString⟩, ⟨"MATNR", .dString⟩, ⟨"WERKS", .dString⟩,
   ⟨"PLIFZ", .dString⟩, ⟨"DZEIT", .dString⟩, ⟨"DISLS", .dString⟩]

/-- Schema catalog: Plants and Branches (T001W). -/
def PLANT_DATA_SCHEMA : Schema :=
  [⟨"MANDT", .dString⟩, ⟨"WERKS", .dString⟩, ⟨"BWKEY", .dString⟩,
   ⟨"NAME1", .dString⟩]

/-- Schema catalog: Valuation Area (T001K). -/
def VALUATION_DATA_SCHEMA : Schema :=
  [⟨"MANDT", .dString⟩, ⟨"BUKRS", .dString⟩, ⟨"BWKEY", .dString⟩]

/-- Schema catalog: Company Codes (T001). -/
def COMPANY_CODE_DATA_SCHEMA : Schema :=
  [⟨"MANDT", .dString⟩, ⟨"BUKRS", .dString⟩, ⟨"WAERS", .dString⟩]

/-- Schema catalog: Order Header (AFKO). -/
def AFKO_SCHEMA : Schema :=
  [⟨"SOURCE_SYSTEM_ERP", .dString⟩, ⟨"MANDT", .dString⟩, ⟨"AUFNR", .dString⟩,
   ⟨"start_date", .dDate⟩, ⟨"finish_date", .dDate⟩, ⟨"GLTRP", .dString⟩,
   ⟨"GSTRI", .dString⟩]

/-- Schema catalog: unified output schema shared by both pipelines. -/
def UNIFIED_SCHEMA : Schema :=
  [⟨"material_number", .dString⟩, ⟨"client", .dString⟩,
   ⟨"primary_key_intra", .dString⟩, ⟨"primary_key_inter", .dString⟩,
   ⟨"company_code", .dString⟩, ⟨"valuation_area", .dString⟩,
   ⟨"planned_delivery_time", .dString⟩, ⟨"decoupling_time", .dString⟩,
   ⟨"discontinuation_indicator", .dString⟩, ⟨"unit_of_measure", .dString⟩,
   ⟨"name_of_plant", .dString⟩, ⟨"price_control_indicator", .dString⟩,
   ⟨"moving_average_price", .dDouble⟩, ⟨"standard_price", .dDouble⟩,
   ⟨"unit_price", .dDouble⟩, ⟨"valuation_class", .dString⟩,
   ⟨"currency_key", .dString⟩, ⟨"mtl_plant_emd", .dString⟩,
   ⟨"global_mtl_id", .dString⟩, ⟨"no_of_duplicates", .dInt⟩,
   ⟨"order_number", .dString⟩, ⟨"source_system_erp", .dString⟩,
   ⟨"start_date_source", .dString⟩, ⟨"start_date", .dDate⟩,
   ⟨"order_start_timestamp_source", .dString⟩, ⟨"order_item_number", .dString⟩,
   ⟨"plant", .dString⟩, ⟨"sales_order_number", .dString⟩,
   ⟨"order_finish_timestamp_source", .dString⟩, ⟨"object_number", .dString⟩,
   ⟨"creation_date", .dDate⟩, ⟨"created_by", .dString⟩,
   ⟨"order_type", .dString⟩, ⟨"original_basic_finish_date", .dDate⟩,
   ⟨"project_text", .dString⟩, ⟨"material_type", .dString⟩,
   ⟨"net_weight", .dDouble⟩, ⟨"global_material_number", .dString⟩,
   ⟨"on_time_flag", .dString⟩, ⟨"actual_on_time_deviation", .dDouble⟩,
   ⟨"late_delivery_bucket", .dString⟩, ⟨"mto_vs_mts_flag", .dString⟩,
   ⟨"order_finish_timestamp", .dTimestamp⟩, ⟨"order_start_timestamp", .dTimestamp⟩]

/-- Field-rename map of the material pipeline
(`LOCAL_MATERIAL_SCHEMA_WITH_RELAVENT_NAMES`). -/
def LOCAL_MATERIAL_RENAME_MAP : List (String × String) :=
  [("MATNR", "material_number"), ("SOURCE_SYSTEM_ERP", "source_system_erp"),
   ("MANDT", "client"), ("BUKRS", "company_code"), ("BWKEY", "valuation_area"),
   ("WERKS", "plant"), ("PLIFZ", "planned_delivery_time"),
   ("DZEIT", "decoupling_time"), ("DISLS", "discontinuation_indicator"),
   ("MEINS", "unit_of_measure"), ("NAME1", "name_of_plant"),
   ("VPRSV", "price_control_indicator"), ("VERPR", "moving_average_price"),
   ("STPRS", "standard_price"), ("PEINH", "unit_price"),
   ("BKLAS", "valuation_class"), ("WAERS", "currency_key")]

/-- Field-rename map of the order pipeline
(`PROCESS_ORDER_SCHEMA_WITH_RELAVENT_NAMES`). -/
def PROCESS_ORDER_RENAME_MAP : List (String × String) :=
  [("MATNR", "material_number"), ("AUFNR", "order_number"),
   ("SOURCE_SYSTEM_ERP", "source_system_erp"), ("MANDT", "client"),
   ("GLTRP", "start_date_source"), ("GSTRI", "order_start_timestamp_source"),
   ("POSNR", "order_item_number"), ("DWERK", "plant"),
   ("KDAUF", "sales_order_number"), ("LTRMI", "order_finish_timestamp_source"),
   ("OBJNR", "object_number"), ("ERDAT", "creation_date"),
   ("ERNAM", "created_by"), ("AUART", "order_type"),
   ("ZZGLTRP_ORIG", "original_basic_finish_date"), ("ZZPRO_TEXT", "project_text"),
   ("MTART", "material_type"), ("NTGEW", "net_weight")]

/-- The material pipeline's rename step as invoked by
`process_local_material` (note `select=False` at the call site). -/
def materialRenameStep (df : DataFrame) : DataFrame :=
  rename_and_select df LOCAL_MATERIAL_RENAME_MAP false

/-- The order pipeline's rename step as invoked by `process_order`
(`select=False` at the call site). -/
def orderRenameStep (df : DataFrame) : DataFrame :=
  rename_and_select df PROCESS_ORDER_RENAME_MAP false

/-- Material preparer row filter on the old material number: keep rows
where BISMT is NULL or not one of ARCHIVE, DUPLICATE, RENUMBERED. -/
def bismtValid (r : Row) : Bool :=
  match getVal r "BISMT" with
  | none => true
  | some v => !(v == .vStr "ARCHIVE" || v == .vStr "DUPLICATE" || v == .vStr "RENUMBERED")

/-- Material preparer deletion filter: keep rows where LVORM is NULL or
the empty string. -/
def lvormNullOrEmpty (r : Row) : Bool :=
  match getVal r "LVORM" with
  | none => true
  | some v => v == .vStr ""

/-- Material preparer (`prep_general_material_data`) after its input-kind
checks: optional BISMT validity filter, optional deletion filter, rename of
the caller-specified global-material-number column, schema enforcement. -/
def prep_general_material_data (df : DataFrame) (colGmn : String)
    (checkOld checkDel : Bool) : Except String DataFrame := do
  let d1 ←
    if checkOld then do
      let _ ← requireCols df ["BISMT"]
      pure (filterD df bismtValid)
    else pure df
  let d2 ←
    if checkDel then do
      let _ ← requireCols d1 ["LVORM"]
      pure (filterD d1 lvormNullOrEmpty)
    else pure d1
  pure (enforce_schema (renameCol d2 colGmn "global_material_number") MARA_SCHEMA)

/-- Window deduplication of the valuation preparer: one surviving row per
key group, the one winning the strict descending LAEPR comparison (first
occurrence wins ties, one deterministic choice for Spark's unspecified
`row_number` tie order). -/
def pickStep (keyOf : Row → List (Option Val)) (ord : Row → Option Val)
    (acc : List Row) (r : Row) : List Row :=
  if acc.any (fun s => keyOf s == keyOf r) then
    acc.map (fun s =>
      if keyOf s == keyOf r then (if ordGtB (ord r) (ord s) then r else s) else s)
  else acc ++ [r]

/-- Window deduplication body: fold each row into the kept list, keeping
per key the row winning the strict descending comparison. -/
def pickMaxByKey (keyOf : Row → List (Option Val)) (ord : Row → Option Val)
    (rows : List Row) : List Row :=
  rows.foldl (pickStep keyOf ord) []

/-- The valuation dedup partition key: (MATNR, BWKEY); NULL keys group
together (window partitioning semantics). -/
def mbewKey (r : Row) : List (Option Val) :=
  [getVal r "MATNR", getVal r "BWKEY"]

/-- The last-evaluated-price column used for the valuation ranking. -/
def laeprOf (r : Row) : Option Val :=
  getVal r "LAEPR"

/-- Valuation preparer (`prep_material_valuation`): drop deletion-flagged
rows (LVORM non-NULL), drop split-valuation rows (BWTAR non-NULL), keep
per (MATNR, BWKEY) the row ranked first by descending LAEPR (the source's
`row_number` filter; the transient `row_num` column is dropped by the
subsequent schema enforcement and is not materialized here), enforce the
MBEW schema, drop exact duplicates. -/
def prep_material_valuation (df : DataFrame) : Except String DataFrame := do
  let _ ← requireCols df ["LVORM"]
  let d1 := filterD df (fun r => getVal r "LVORM" == none)
  let _ ← requireCols d1 ["BWTAR"]
  let d2 := filterD d1 (fun r => getVal r "BWTAR" == none)
  let _ ← requireCols d2 ["MATNR", "BWKEY", "LAEPR"]
  let d3 : DataFrame := { cols := d2.cols, rows := pickMaxByKey mbewKey laeprOf d2.rows }
  pure (dropDupAll (enforce_schema d3 MBEW_SCHEMA))

/-- Plant-material preparer (`prep_plant_data_for_material`): optional
deletion filter, MARC schema enforcement, optional duplicate drop. -/
def prep_plant_data_for_material (df : DataFrame) (checkDel dropDup : Bool) :
    Except String DataFrame := do
  let d1 ←
    if checkDel then do
      let _ ← requireCols df ["LVORM"]
      pure (filterD df (fun r => getVal r "LVORM" == none))
    else pure df
  let d2 := enforce_schema d1 MARC_SCHEMA
  pure (if dropDup then dropDupAll d2 else d2)

/-- Plant/branch preparer (`prep_plant_and_branches`): schema enforcement
only. -/
def prep_plant_and_branches (df : DataFrame) : DataFrame :=
  enforce_schema df PLANT_DATA_SCHEMA

/-- Valuation-area preparer (`prep_valuation_area`): schema enforcement
plus duplicate drop. -/
def prep_valuation_area (df : DataFrame) : DataFrame :=
  dropDupAll (enforce_schema df VALUATION_DATA_SCHEMA)

/-- Company-code preparer (`prep_company_codes`): schema enforcement only. -/
def prep_company_codes (df : DataFrame) : DataFrame :=
  enforce_schema df COMPANY_CODE_DATA_SCHEMA

/-- Year-month formatting of a date-string value (`F.date_format(c,
"yyyy-MM")`): NULL or unparsable gives NULL, else the year-month prefix. -/
def dateFormatYM (v : Option Val) : Option Val :=
  match v with
  | some (.vStr s) => if (parseDate s).isSome then some (.vStr (s.take 7)) else none
  | _ => none

/-- Order-header preparer (`prep_order_header_data`). `todayYM` is the
current processing date already formatted `yyyy-MM` (the source's
`F.current_date()`, passed explicitly since the model is pure). -/
def prep_order_header_data (todayYM : String) (df : DataFrame) :
    Except String DataFrame := do
  let _ ← requireCols df ["GSTRP"]
  let d1 := withColumnD df "start_date" .dString (fun r =>
    match getVal r "GSTRP" with
    | none => some (.vStr todayYM)
    | v => dateFormatYM v)
  let d2 := withColumnD d1 "start_date" .dString (fun r =>
    some (concatWsVal "-" [getVal r "start_date", some (.vStr "01")]))
  pure (enforce_schema d2 AFKO_SCHEMA)

/-- Generic schema-enforcing preparer (`dataframe_with_enforced_schema`). -/
def dataframe_with_enforced_schema (df : DataFrame) (schema : Schema) : DataFrame :=
  enforce_schema df schema

/-- Material Integrator (`integrate_data`): base MARC, then five
left-preserving equi-joins in the source's order and key lists. -/
def integrate_data (sap_marc sap_mara sap_mbew sap_t001w sap_t001k sap_t001 :
    DataFrame) : DataFrame :=
  let j1 := leftJoin sap_marc sap_mara ["MATNR"]
  let j2 := leftJoin j1 sap_t001w ["MANDT", "WERKS"]
  let j3 := leftJoin j2 sap_mbew ["MANDT", "MATNR", "BWKEY"]
  let j4 := leftJoin j3 sap_t001k ["MANDT", "BWKEY"]
  leftJoin j4 sap_t001 ["MANDT", "BUKRS"]

/-- Key derivation of the material Post-Processor
(`derive_intra_and_inter_primary_key`). -/
def derive_intra_and_inter_primary_key (df : DataFrame) :
    Except String DataFrame := do
  let _ ← requireCols df ["MATNR", "WERKS"]
  let d1 := withColumnD df "primary_key_intra" .dString (fun r =>
    some (concatWsVal "-" [getVal r "MATNR", getVal r "WERKS"]))
  let _ ← requireCols d1 ["SOURCE_SYSTEM_ERP", "MATNR", "WERKS"]
  pure (withColumnD d1 "primary_key_inter" .dString (fun r =>
    some (concatWsVal "-" [getVal r "SOURCE_SYSTEM_ERP", getVal r "MATNR",
      getVal r "WERKS"])))

/-- The material Post-Processor's dedup key:
(SOURCE_SYSTEM_ERP, MATNR, WERKS); NULL keys group together. -/
def matKey (r : Row) : List (Option Val) :=
  [getVal r "SOURCE_SYSTEM_ERP", getVal r "MATNR", getVal r "WERKS"]

/-- Material Post-Processor (`post_prep_local_material`): derive
`mtl_plant_emd`, `global_mtl_id` and the two primary keys, count rows per
composite key over a window, then keep one row per composite key. -/
def post_prep_local_material (df : DataFrame) : Except String DataFrame := do
  let _ ← requireCols df ["WERKS", "NAME1"]
  let d1 := withColumnD df "mtl_plant_emd" .dString (fun r =>
    some (concatWsVal "-" [getVal r "WERKS", getVal r "NAME1"]))
  let _ ← requireCols d1 ["MATNR", "GLOBAL_MATERIAL_NUMBER"]
  let d2 := withColumnD d1 "global_mtl_id" .dString (fun r =>
    coalesceVal [getVal r "MATNR", getVal r "GLOBAL_MATERIAL_NUMBER"])
  let d3 ← derive_intra_and_inter_primary_key d2
  let _ ← requireCols d3 ["SOURCE_SYSTEM_ERP", "MATNR", "WERKS"]
  let d4 := withColumnD d3 "no_of_duplicates" .dInt (fun r =>
    some (.vInt (d3.rows.countP (fun s => matKey s == matKey r))))
  pure (dropDupOn d4 ["SOURCE_SYSTEM_ERP", "MATNR", "WERKS"])

/-- The order Post-Processor's on-time expression: the source's when-chain
`when(ZZGLTRP_ORIG >= LTRMI, 1).when(ZZGLTRP_ORIG < LTRMI, 0).otherwise(None)`;
a NULL on either side satisfies neither condition. -/
def onTimeFlagExpr (zz ltrmi : Option Val) : Option Val :=
  match zz, ltrmi with
  | some a, some b =>
    if valGeB a b then some (.vInt 1)
    else if valLtB a b then some (.vInt 0)
    else none
  | _, _ => none

/-- The order Post-Processor's bucket expression: the source's when-chain
over `actual_on_time_deviation`, whose `otherwise` branch also receives
NULL deviations. -/
def lateBucketExpr (dev : Option Val) : Option Val :=
  match dev with
  | some (.vInt n) =>
    some (.vStr (if n ≤ 0 then "On-Time"
      else if 1 ≤ n ∧ n ≤ 5 then "Slightly Late"
      else if 6 ≤ n ∧ n ≤ 10 then "Moderately Late"
      else "Severely Late"))
  | _ => some (.vStr "Severely Late")

/-- `F.to_timestamp(c, "yyyy-MM-dd")`: NULL or unparsable gives NULL. -/
def toTimestampYMD (v : Option Val) : Option Val :=
  match v with
  | some (.vStr s) => (parseDate s).map Val.vInt
  | _ => none

/-- First phase of the order Post-Processor (`post_prep_process_order`
steps 1-3 of the source): primary keys, on-time flag, deviation and
late-delivery bucket. Each step fails when its referenced columns are
absent, exactly where the source's column expressions would fail analysis. -/
def postOrderPre (df : DataFrame) : Except String DataFrame := do
  let _ ← requireCols df ["AUFNR", "POSNR", "DWERK"]
  let d1 := withColumnD df "primary_key_intra" .dString (fun r =>
    some (concatWsVal "_" [getVal r "AUFNR", getVal r "POSNR", getVal r "DWERK"]))
  let _ ← requireCols d1 ["SOURCE_SYSTEM_ERP", "AUFNR", "POSNR", "DWERK"]
  let d2 := withColumnD d1 "primary_key_inter" .dString (fun r =>
    some (concatWsVal "_" [getVal r "SOURCE_SYSTEM_ERP", getVal r "AUFNR",
      getVal r "POSNR", getVal r "DWERK"]))
  let _ ← requireCols d2 ["ZZGLTRP_ORIG", "LTRMI"]
  let d3 := withColumnD d2 "on_time_flag" .dInt (fun r =>
    onTimeFlagExpr (getVal r "ZZGLTRP_ORIG") (getVal r "LTRMI"))
  let _ ← requireCols d3 ["ZZGLTRP_ORIG", "LTRMI"]
  let d4 := withColumnD d3 "actual_on_time_deviation" .dInt (fun r =>
    dateDiff (getVal r "ZZGLTRP_ORIG") (getVal r "LTRMI"))
  let _ ← requireCols d4 ["actual_on_time_deviation"]
  pure (withColumnD d4 "late_delivery_bucket" .dString (fun r =>
    lateBucketExpr (getVal r "actual_on_time_deviation")))

/-- Step 4 of the order Post-Processor: the presence check that adds
`ZZGLTRP_ORIG` as a NULL column only when it is still absent. -/
def ensureZZ (df : DataFrame) : DataFrame :=
  if df.colNames.contains "ZZGLTRP_ORIG" then df
  else withColumnD df "ZZGLTRP_ORIG" .dString (fun _ => none)

/-- Steps 5-6 of the order Post-Processor: MTO/MTS flag and the two
timestamp conversions. -/
def postOrderFinal (df : DataFrame) : Except String DataFrame := do
  let _ ← requireCols df ["KDAUF"]
  let d6 := withColumnD df "mto_vs_mts_flag" .dString (fun r =>
    some (.vStr (if (getVal r "KDAUF").isSome then "MTO" else "MTS")))
  let _ ← requireCols d6 ["LTRMI"]
  let d7 := withColumnD d6 "order_finish_timestamp" .dTimestamp (fun r =>
    toTimestampYMD (getVal r "LTRMI"))
  let _ ← requireCols d7 ["GSTRI"]
  pure (withColumnD d7 "order_start_timestamp" .dTimestamp (fun r =>
    toTimestampYMD (getVal r "GSTRI")))

/-- Order Post-Processor (`post_prep_process_order`), in the source's
step order: derivations first, then the `ZZGLTRP_ORIG` presence check,
then the remaining flags and timestamps. -/
def post_prep_process_order (df : DataFrame) : Except String DataFrame := do
  let a ← postOrderPre df
  postOrderFinal (ensureZZ a)

/-- A dynamically-typed Python value as passed to a preparer: the kinds
the validation layer distinguishes, plus representative wrong-kind values. -/
inductive PyVal where
  | pyStr (s : String)
  | pyBool (b : Bool)
  | pyDF (df : DataFrame)
  | pyInt (n : Int)
  | pyDict
  | pyNone
deriving DecidableEq, Repr

/-- Python's rendering of the value's type, as interpolated into the
validation error message. -/
def pyTypeName : PyVal → String
  | .pyStr _ => "<class 'str'>"
  | .pyBool _ => "<class 'bool'>"
  | .pyDF _ => "<class 'pyspark.sql.dataframe.DataFrame'>"
  | .pyInt _ => "<class 'int'>"
  | .pyDict => "<class 'dict'>"
  | .pyNone => "<class 'NoneType'>"

/-- The validation layer's error message for one failed check. -/
def typeErrMsg (expected : String) (v : PyVal) : String :=
  "Invalid type for input. Expected a " ++ expected ++ " type but we got " ++
    pyTypeName v ++ "."

/-- Kind tests mirroring the `isinstance` checks. -/
def PyVal.isStr : PyVal → Bool
  | .pyStr _ => true
  | _ => false

/-- Dataset kind test. -/
def PyVal.isDF : PyVal → Bool
  | .pyDF _ => true
  | _ => false

/-- Boolean kind test. -/
def PyVal.isBool : PyVal → Bool
  | .pyBool _ => true
  | _ => false

/-- Python truthiness for the values the flag positions can carry once
validation has passed (booleans, or None which the checks skip). -/
def pyTruthy : PyVal → Bool
  | .pyBool b => b
  | .pyStr s => !s.isEmpty
  | .pyInt n => n != 0
  | .pyDF _ => true
  | .pyDict => false
  | .pyNone => false

/-- Input validation (`process_data`): each check runs only when its
argument is not None (`if x is not None`), so a None argument bypasses
its check entirely. -/
def process_data (stringCheck dataframeCheck booleanCheck : PyVal) :
    Except String Unit :=
  if stringCheck != .pyNone && !stringCheck.isStr then
    .error (typeErrMsg "str" stringCheck)
  else if dataframeCheck != .pyNone && !dataframeCheck.isDF then
    .error (typeErrMsg "DataFrame" dataframeCheck)
  else if booleanCheck != .pyNone && !booleanCheck.isBool then
    .error (typeErrMsg "boolean" booleanCheck)
  else .ok ()

/-- A Python runtime failure on a None dataset reaching a DataFrame
method (`AttributeError`), distinct from the validation layer's message. -/
def noneAttrErr : String :=
  "AttributeError: NoneType object has no DataFrame attribute"

/-- Dynamic-layer material preparer: validation first (string, dataset and
first flag in one call, second flag in another), then the typed body. -/
def prep_general_material_data_py (dfv colv flag1 flag2 : PyVal) :
    Except String DataFrame := do
  let _ ← process_data colv dfv flag1
  let _ ← process_data .pyNone .pyNone flag2
  match dfv with
  | .pyDF df =>
    match colv with
    | .pyStr s => prep_general_material_data df s (pyTruthy flag1) (pyTruthy flag2)
    | _ => .error "TypeError: withColumnRenamed requires string column names"
  | _ => .error noneAttrErr

/-- Dynamic-layer valuation preparer. -/
def prep_material_valuation_py (dfv : PyVal) : Except String DataFrame := do
  let _ ← process_data .pyNone dfv .pyNone
  match dfv with
  | .pyDF df => prep_material_valuation df
  | _ => .error noneAttrErr

/-- Dynamic-layer plant-material preparer: dataset and first flag checked
together, second flag checked separately. -/
def prep_plant_data_for_material_py (dfv flag1 flag2 : PyVal) :
    Except String DataFrame := do
  let _ ← process_data .pyNone dfv flag1
  let _ ← process_data .pyNone .pyNone flag2
  match dfv with
  | .pyDF df => prep_plant_data_for_material df (pyTruthy flag1) (pyTruthy flag2)
  | _ => .error noneAttrErr

/-- Dynamic-layer plant/branch preparer. -/
def prep_plant_and_branches_py (dfv : PyVal) : Except String DataFrame := do
  let _ ← process_data .pyNone dfv .pyNone
  match dfv with
  | .pyDF df => pure (prep_plant_and_branches df)
  | _ => .error noneAttrErr

/-- Dynamic-layer valuation-area preparer. -/
def prep_valuation_area_py (dfv : PyVal) : Except String DataFrame := do
  let _ ← process_data .pyNone dfv .pyNone
  match dfv with
  | .pyDF df => pure (prep_valuation_area df)
  | _ => .error noneAttrErr

/-- Dynamic-layer company-code preparer. -/
def prep_company_codes_py (dfv : PyVal) : Except String DataFrame := do
  let _ ← process_data .pyNone dfv .pyNone
  match dfv with
  | .pyDF df => pure (prep_company_codes df)
  | _ => .error noneAttrErr

/-- Dynamic-layer order-header preparer. -/
def prep_order_header_data_py (todayYM : String) (dfv : PyVal) :
    Except String DataFrame := do
  let _ ← process_data .pyNone dfv .pyNone
  match dfv with
  | .pyDF df => prep_order_header_data todayYM df
  | _ => .error noneAttrErr

/-- Dynamic-layer generic schema-enforcing preparer
(`dataframe_with_enforced_schema`). -/
def dataframe_with_enforced_schema_py (dfv : PyVal) (schema : Schema) :
    Except String DataFrame := do
  let _ ← process_data .pyNone dfv .pyNone
  match dfv with
  | .pyDF df => pure (dataframe_with_enforced_schema df schema)
  | _ => .error noneAttrErr

/-- Spec-side statement of the on-time rule, written from the
specification's words: 1 when the original finish date is on or after the
actual finish date source, 0 when strictly before, NULL when either is
NULL. -/
def onTimeFlagSpec (zz ltrmi : Option Val) : Option Val :=
  match zz, ltrmi with
  | some a, some b => some (.vInt (if valGeB a b then 1 else 0))
  | _, _ => none

/-- Spec-side statement of the late-delivery buckets, written from the
specification's words: deviation at most 0 is On-Time, 1 to 5 Slightly
Late, 6 to 10 Moderately Late, anything else (over 10, or NULL/undefined)
Severely Late. -/
def bucketOfDeviationSpec (dev : Option Val) : String :=
  match dev with
  | some (.vInt n) =>
    if n ≤ 0 then "On-Time"
    else if n ≤ 5 then "Slightly Late"
    else if n ≤ 10 then "Moderately Late"
    else "Severely Late"
  | _ => "Severely Late"

/-- Total row access: the i-th row, or the empty row out of range. -/
def rowAt (df : DataFrame) (i : Nat) : Row :=
  df.rows.getD i []

/-- The empty dataset. -/
def emptyDF : DataFrame :=
  { cols := [], rows := [] }

/-- Extract the dataset of a successful run (empty dataset on failure);
used only to name concrete pipeline outputs. -/
def okOr (e : Except String DataFrame) : DataFrame :=
  match e with
  | .ok d => d
  | .error _ => emptyDF

/-- The valuation preparer's row set after its two NULL-flag filters. -/
def mbewFiltered (df : DataFrame) : List Row :=
  (df.rows.filter (fun r => getVal r "LVORM" == none)).filter
    (fun r => getVal r "BWTAR" == none)

/-- The valuation preparer's row set after window deduplication. -/
def mbewSurvivors (df : DataFrame) : List Row :=
  pickMaxByKey mbewKey laeprOf (mbewFiltered df)

/-- Concrete material Post-Processor input: three integrated rows, two of
them sharing the composite key (S1, M1, P1). -/
def exC1 : DataFrame :=
  { cols := [⟨"SOURCE_SYSTEM_ERP", .dString⟩, ⟨"MATNR", .dString⟩,
      ⟨"WERKS", .dString⟩, ⟨"NAME1", .dString⟩,
      ⟨"GLOBAL_MATERIAL_NUMBER", .dString⟩]
    rows :=
      [[("SOURCE_SYSTEM_ERP", some (.vStr "S1")), ("MATNR", some (.vStr "M1")),
        ("WERKS", some (.vStr "P1")), ("NAME1", some (.vStr "Plant One")),
        ("GLOBAL_MATERIAL_NUMBER", none)],
       [("SOURCE_SYSTEM_ERP", some (.vStr "S1")), ("MATNR", some (.vStr "M1")),
        ("WERKS", some (.vStr "P1")), ("NAME1", some (.vStr "Plant One")),
        ("GLOBAL_MATERIAL_NUMBER", some (.vStr "G1"))],
       [("SOURCE_SYSTEM_ERP", some (.vStr "S1")), ("MATNR", some (.vStr "M1")),
        ("WERKS", some (.vStr "P2")), ("NAME1", some (.vStr "Plant Two")),
        ("GLOBAL_MATERIAL_NUMBER", some (.vStr "G1"))]] }

/-- The material Post-Processor's output on `exC1`. -/
def exC1out : DataFrame :=
  okOr (post_prep_local_material exC1)

/-- Concrete Schema Enforcer input: three columns, one row. -/
def exC2df : DataFrame :=
  { cols := [⟨"pk", .dString⟩, ⟨"num", .dString⟩, ⟨"extra", .dString⟩]
    rows := [[("pk", some (.vStr "k1")), ("num", some (.vStr "42")),
      ("extra", some (.vStr "x"))]] }

/-- Concrete target schema: one present string field, one absent field,
one present field requiring an integer cast. -/
def exC2schema : Schema :=
  [⟨"pk", .dString⟩, ⟨"missing_col", .dInt⟩, ⟨"num", .dInt⟩]

/-- Concrete valuation preparer input: two undeleted, non-split rows for
the same (M1, V1) with last-evaluated prices 100 and 150, plus one
deletion-flagged row. -/
def exC3 : DataFrame :=
  { cols := [⟨"MANDT", .dString⟩, ⟨"MATNR", .dString⟩, ⟨"BWKEY", .dString⟩,
      ⟨"VPRSV", .dString⟩, ⟨"VERPR", .dDouble⟩, ⟨"STPRS", .dDouble⟩,
      ⟨"PEINH", .dDouble⟩, ⟨"BKLAS", .dString⟩, ⟨"LVORM", .dString⟩,
      ⟨"BWTAR", .dString⟩, ⟨"LAEPR", .dDouble⟩]
    rows :=
      [[("MANDT", some (.vStr "100")), ("MATNR", some (.vStr "M1")),
        ("BWKEY", some (.vStr "V1")), ("VPRSV", some (.vStr "S")),
        ("VERPR", some (.vInt 10)), ("STPRS", some (.vInt 10)),
        ("PEINH", some (.vInt 1)), ("BKLAS", some (.vStr "B1")),
        ("LVORM", none), ("BWTAR", none), ("LAEPR", some (.vInt 100))],
       [("MANDT", some (.vStr "100")), ("MATNR", some (.vStr "M1")),
        ("BWKEY", some (.vStr "V1")), ("VPRSV", some (.vStr "S")),
        ("VERPR", some (.vInt 15)), ("STPRS", some (.vInt 15)),
        ("PEINH", some (.vInt 1)), ("BKLAS", some (.vStr "B1")),
        ("LVORM", none), ("BWTAR", none), ("LAEPR", some (.vInt 150))],
       [("MANDT", some (.vStr "100")), ("MATNR", some (.vStr "M1")),
        ("BWKEY", some (.vStr "V1")), ("VPRSV", some (.vStr "S")),
        ("VERPR", some (.vInt 99)), ("STPRS", some (.vInt 99)),
        ("PEINH", some (.vInt 1)), ("BKLAS", some (.vStr "B1")),
        ("LVORM", some (.vStr "X")), ("BWTAR", none),
        ("LAEPR", some (.vInt 999))]] }

/-- The valuation preparer's output on `exC3`. -/
def exC3out : DataFrame :=
  okOr (prep_material_valuation exC3)

/-- Concrete raw MARC input for the Integrator scenario: one plant row. -/
def rawMarcC4 : DataFrame :=
  { cols := [⟨"SOURCE_SYSTEM_ERP", .dString⟩, ⟨"MATNR", .dString⟩,
      ⟨"WERKS", .dString⟩, ⟨"PLIFZ", .dString⟩, ⟨"DZEIT", .dString⟩,
      ⟨"DISLS", .dString⟩, ⟨"LVORM", .dString⟩]
    rows :=
      [[("SOURCE_SYSTEM_ERP", some (.vStr "S1")), ("MATNR", some (.vStr "M1")),
        ("WERKS", some (.vStr "P1")), ("PLIFZ", some (.vStr "10")),
        ("DZEIT", some (.vStr "5")), ("DISLS", some (.vStr "D")),
        ("LVORM", none)]] }

/-- Concrete raw MARA input: two valid rows for the same material number
M1 (different units of measure), both surviving preparation. -/
def rawMaraC4 : DataFrame :=
  { cols := [⟨"MANDT", .dString⟩, ⟨"MATNR", .dString⟩, ⟨"MEINS", .dString⟩,
      ⟨"ZZMDGM", .dString⟩, ⟨"BISMT", .dString⟩, ⟨"LVORM", .dString⟩]
    rows :=
      [[("MANDT", some (.vStr "100")), ("MATNR", some (.vStr "M1")),
        ("MEINS", some (.vStr "EA")), ("ZZMDGM", some (.vStr "G1")),
        ("BISMT", none), ("LVORM", none)],
       [("MANDT", some (.vStr "100")), ("MATNR", some (.vStr "M1")),
        ("MEINS", some (.vStr "KG")), ("ZZMDGM", some (.vStr "G1")),
        ("BISMT", none), ("LVORM", none)]] }

/-- Concrete raw MBEW input: no rows. -/
def rawMbewC4 : DataFrame :=
  { cols := [⟨"MANDT", .dString⟩, ⟨"MATNR", .dString⟩, ⟨"BWKEY", .dString⟩,
      ⟨"VPRSV", .dString⟩, ⟨"VERPR", .dDouble⟩, ⟨"STPRS", .dDouble⟩,
      ⟨"PEINH", .dDouble⟩, ⟨"BKLAS", .dString⟩, ⟨"LVORM", .dString⟩,
      ⟨"BWTAR", .dString⟩, ⟨"LAEPR", .dDouble⟩]
    rows := [] }

/-- Concrete raw T001W input: no rows. -/
def rawT001wC4 : DataFrame :=
  { cols := [⟨"MANDT", .dString⟩, ⟨"WERKS", .dString⟩, ⟨"BWKEY", .dString⟩,
      ⟨"NAME1", .dString⟩]
    rows := [] }

/-- Concrete raw T001K input: no rows. -/
def rawT001kC4 : DataFrame :=
  { cols := [⟨"MANDT", .dString⟩, ⟨"BUKRS", .dString⟩, ⟨"BWKEY", .dString⟩]
    rows := [] }

/-- Concrete raw T001 input: no rows. -/
def rawT001C4 : DataFrame :=
  { cols := [⟨"MANDT", .dString⟩, ⟨"BUKRS", .dString⟩, ⟨"WAERS", .dString⟩]
    rows := [] }

/-- Prepared MARC dataset (the pipeline's default preparer flags). -/
def marcPrepC4 : DataFrame :=
  okOr (prep_plant_data_for_material rawMarcC4 true false)

/-- Prepared MARA dataset. -/
def maraPrepC4 : DataFrame :=
  okOr (prep_general_material_data rawMaraC4 "ZZMDGM" true true)

/-- Prepared MBEW dataset. -/
def mbewPrepC4 : DataFrame :=
  okOr (prep_material_valuation rawMbewC4)

/-- Prepared T001W dataset. -/
def t001wPrepC4 : DataFrame :=
  prep_plant_and_branches rawT001wC4

/-- Prepared T001K dataset. -/
def t001kPrepC4 : DataFrame :=
  prep_valuation_area rawT001kC4

/-- Prepared T001 dataset. -/
def t001PrepC4 : DataFrame :=
  prep_company_codes rawT001C4

/-- The Integrator's output on the six prepared datasets. -/
def integratedC4 : DataFrame :=
  integrate_data marcPrepC4 maraPrepC4 mbewPrepC4 t001wPrepC4 t001kPrepC4
    t001PrepC4

/-- Concrete order Post-Processor input: six rows exercising every
on-time-flag and late-bucket regime (deviation 0, -1, NULL, 5, 6, 11). -/
def exOrd : DataFrame :=
  { cols := [⟨"SOURCE_SYSTEM_ERP", .dString⟩, ⟨"AUFNR", .dString⟩,
      ⟨"POSNR", .dString⟩, ⟨"DWERK", .dString⟩, ⟨"ZZGLTRP_ORIG", .dString⟩,
      ⟨"LTRMI", .dString⟩, ⟨"KDAUF", .dString⟩, ⟨"GSTRI", .dString⟩]
    rows :=
      [[("SOURCE_SYSTEM_ERP", some (.vStr "S1")), ("AUFNR", some (.vStr "O1")),
        ("POSNR", some (.vStr "10")), ("DWERK", some (.vStr "P1")),
        ("ZZGLTRP_ORIG", some (.vStr "2024-01-10")),
        ("LTRMI", some (.vStr "2024-01-10")), ("KDAUF", some (.vStr "K1")),
        ("GSTRI", some (.vStr "2024-01-01"))],
       [("SOURCE_SYSTEM_ERP", some (.vStr "S1")), ("AUFNR", some (.vStr "O2")),
        ("POSNR", some (.vStr "10")), ("DWERK", some (.vStr "P1")),
        ("ZZGLTRP_ORIG", some (.vStr "2024-01-09")),
        ("LTRMI", some (.vStr "2024-01-10")), ("KDAUF", none),
        ("GSTRI", some (.vStr "2024-01-01"))],
       [("SOURCE_SYSTEM_ERP", some (.vStr "S1")), ("AUFNR", some (.vStr "O3")),
        ("POSNR", some (.vStr "10")), ("DWERK", some (.vStr "P1")),
        ("ZZGLTRP_ORIG", none),
        ("LTRMI", some (.vStr "2024-01-10")), ("KDAUF", none),
        ("GSTRI", none)],
       [("SOURCE_SYSTEM_ERP", some (.vStr "S1")), ("AUFNR", some (.vStr "O4")),
        ("POSNR", some (.vStr "10")), ("DWERK", some (.vStr "P1")),
        ("ZZGLTRP_ORIG", some (.vStr "2024-01-15")),
        ("LTRMI", some (.vStr "2024-01-10")), ("KDAUF", none),
        ("GSTRI", some (.vStr "2024-01-01"))],
       [("SOURCE_SYSTEM_ERP", some (.vStr "S1")), ("AUFNR", some (.vStr "O5")),
        ("POSNR", some (.vStr "10")), ("DWERK", some (.vStr "P1")),
        ("ZZGLTRP_ORIG", some (.vStr "2024-01-16")),
        ("LTRMI", some (.vStr "2024-01-10")), ("KDAUF", none),
        ("GSTRI", some (.vStr "2024-01-01"))],
       [("SOURCE_SYSTEM_ERP", some (.vStr "S1")), ("AUFNR", some (.vStr "O6")),
        ("POSNR", some (.vStr "10")), ("DWERK", some (.vStr "P1")),
        ("ZZGLTRP_ORIG", some (.vStr "2024-01-21")),
        ("LTRMI", some (.vStr "2024-01-10")), ("KDAUF", none),
        ("GSTRI", some (.vStr "2024-01-01"))]] }

/-- The order Post-Processor's output on `exOrd`. -/
def exOrdOut : DataFrame :=
  okOr (post_prep_process_order exOrd)

/-- Concrete order input lacking the `ZZGLTRP_ORIG` column. -/
def exC10bad : DataFrame :=
  { cols := [⟨"SOURCE_SYSTEM_ERP", .dString⟩, ⟨"AUFNR", .dString⟩,
      ⟨"POSNR", .dString⟩, ⟨"DWERK", .dString⟩, ⟨"LTRMI", .dString⟩,
      ⟨"KDAUF", .dString⟩, ⟨"GSTRI", .dString⟩]
    rows :=
      [[("SOURCE_SYSTEM_ERP", some (.vStr "S1")), ("AUFNR", some (.vStr "O1")),
        ("POSNR", some (.vStr "10")), ("DWERK", some (.vStr "P1")),
        ("LTRMI", some (.vStr "2024-01-10")), ("KDAUF", none),
        ("GSTRI", some (.vStr "2024-01-01"))]] }

/-- Concrete Output Normalizer input lacking most unified fields. -/
def exC7df : DataFrame :=
  { cols := [⟨"material_number", .dString⟩]
    rows := [[("material_number", some (.vStr "M1"))]] }

/-- Concrete rename-step input carrying a column outside the rename map. -/
def exC8df : DataFrame :=
  { cols := [⟨"MATNR", .dString⟩, ⟨"EXTRA_COL", .dString⟩]
    rows := [[("MATNR", some (.vStr "M1")), ("EXTRA_COL", some (.vStr "x"))]] }

/-- Concrete plant-material input whose single row is deletion-flagged. -/
def exC9df : DataFrame :=
  { cols := [⟨"SOURCE_SYSTEM_ERP", .dString⟩, ⟨"MATNR", .dString⟩,
      ⟨"WERKS", .dString⟩, ⟨"PLIFZ", .dString⟩, ⟨"DZEIT", .dString⟩,
      ⟨"DISLS", .dString⟩, ⟨"LVORM", .dString⟩]
    rows :=
      [[("SOURCE_SYSTEM_ERP", some (.vStr "S1")), ("MATNR", some (.vStr "M1")),
        ("WERKS", some (.vStr "P1")), ("PLIFZ", some (.vStr "10")),
        ("DZEIT", some (.vStr "5")), ("DISLS", some (.vStr "D")),
        ("LVORM", some (.vStr "X"))]] }

/-- The name a column ends up with after the rename map's sequential
`withColumnRenamed` passes. -/
def applyRen (mapping : List (String × String)) (n : String) : String :=
  mapping.foldl (fun cur p => if cur == p.1 then p.2 else cur) n

/-- The order Post-Processor's five derivation columns as one total
composite (the value `postOrderPre` returns when all its column
references resolve). -/
def postOrderDerived (df : DataFrame) : DataFrame :=
  withColumnD (withColumnD (withColumnD (withColumnD (withColumnD df
    "primary_key_intra" .dString (fun r =>
      some (concatWsVal "_" [getVal r "AUFNR", getVal r "POSNR", getVal r "DWERK"])))
    "primary_key_inter" .dString (fun r =>
      some (concatWsVal "_" [getVal r "SOURCE_SYSTEM_ERP", getVal r "AUFNR",
        getVal r "POSNR", getVal r "DWERK"])))
    "on_time_flag" .dInt (fun r =>
      onTimeFlagExpr (getVal r "ZZGLTRP_ORIG") (getVal r "LTRMI")))
    "actual_on_time_deviation" .dInt (fun r =>
      dateDiff (getVal r "ZZGLTRP_ORIG") (getVal r "LTRMI")))
    "late_delivery_bucket" .dString (fun r =>
      lateBucketExpr (getVal r "actual_on_time_deviation"))

/-- The order Post-Processor's last three columns as one total composite
(the value `postOrderFinal` returns when its references resolve). -/
def postOrderFinished (df : DataFrame) : DataFrame :=
  withColumnD (withColumnD (withColumnD df
    "mto_vs_mts_flag" .dString (fun r =>
      some (.vStr (if (getVal r "KDAUF").isSome then "MTO" else "MTS"))))
    "order_finish_timestamp" .dTimestamp (fun r => toTimestampYMD (getVal r "LTRMI")))
    "order_start_timestamp" .dTimestamp (fun r => toTimestampYMD (getVal r "GSTRI"))

/-- The material Post-Processor's four derivation columns as one total
composite. -/
def localDerived (df : DataFrame) : DataFrame :=
  withColumnD (withColumnD (withColumnD (withColumnD df
    "mtl_plant_emd" .dString (fun r =>
      some (concatWsVal "-" [getVal r "WERKS", getVal r "NAME1"])))
    "global_mtl_id" .dString (fun r =>
      coalesceVal [getVal r "MATNR", getVal r "GLOBAL_MATERIAL_NUMBER"]))
    "primary_key_intra" .dString (fun r =>
      some (concatWsVal "-" [getVal r "MATNR", getVal r "WERKS"])))
    "primary_key_inter" .dString (fun r =>
      some (concatWsVal "-" [getVal r "SOURCE_SYSTEM_ERP", getVal r "MATNR",
        getVal r "WERKS"]))

/-- The material Post-Processor's window count column over the derived
dataset. -/
def localCounted (df : DataFrame) : DataFrame :=
  withColumnD (localDerived df) "no_of_duplicates" .dInt (fun r =>
    some (.vInt ((localDerived df).rows.countP (fun s => matKey s == matKey r))))

theorem getVal_setVal_same (r : Row) (n : String) (v : Option Val) :
    getVal (setVal r n v) n = v := by
  simp [getVal, setVal, List.find?]

theorem find?_filter_ne (r : Row) (n m : String) (h : m ≠ n) :
    (r.filter (fun p => p.1 != n)).find? (fun p => p.1 == m)
      = r.find? (fun p => p.1 == m) := by
  induction r with
  | nil => rfl
  | cons q rest ih =>
    by_cases hq : q.1 = n
    · have hnm : (n == m) = false := by
        simp
        exact fun hc => h hc.symm
      simp [List.filter, List.find?, hq, hnm, ih]
    · simp only [List.filter, List.find?]
      have : (q.1 != n) = true := by simp [hq]
      rw [this]
      by_cases hm : q.1 = m
      · simp [List.find?, hm]
      · simp [List.find?, hm, ih]

theorem getVal_setVal_ne (r : Row) (n m : String) (v : Option Val) (h : m ≠ n) :
    getVal (setVal r n v) m = getVal r m := by
  have hnm : (n == m) = false := by
    simp
    exact fun hc => h hc.symm
  simp [getVal, setVal, List.find?, hnm, find?_filter_ne r n m h]

theorem contains_iff_mem (l : List String) (a : String) :
    l.contains a = true ↔ a ∈ l := by
  simp [List.contains]

theorem requireCols_ok_iff (df : DataFrame) (ns : List String) :
    requireCols df ns = .ok () ↔ ∀ n ∈ ns, n ∈ df.colNames := by
  unfold requireCols
  split
  · rename_i hall
    simp only [List.all_eq_true] at hall
    constructor
    · intro _ n hn
      exact (contains_iff_mem _ _).1 (hall n hn)
    · intro _
      rfl
  · rename_i hall
    simp only [List.all_eq_true] at hall
    push_neg at hall
    obtain ⟨n, hn, hcon⟩ := hall
    constructor
    · intro hc
      cases hc
    · intro hmem
      exact absurd ((contains_iff_mem _ _).2 (hmem n hn)) (by simpa using hcon)

theorem requireCols_error_of_not_mem (df : DataFrame) (ns : List String)
    (n : String) (hn : n ∈ ns) (h : n ∉ df.colNames) :
    ∃ e, requireCols df ns = .error e := by
  unfold requireCols
  split
  · rename_i hall
    simp only [List.all_eq_true] at hall
    exact absurd ((contains_iff_mem _ _).1 (hall n hn)) h
  · exact ⟨_, rfl⟩

theorem rowAt_mapRows (g : Row → Row) (l : List Row) (i : Nat)
    (h : i < l.length) : (l.map g).getD i [] = g (l.getD i []) := by
  induction l generalizing i with
  | nil => simp at h
  | cons a rest ih =>
    cases i with
    | zero => rfl
    | succ j =>
      simp only [List.map, List.getD_cons_succ]
      exact ih j (by simpa using h)

theorem getVal_proj (r : Row) (kept : List Col) (f : Col) (hf : f ∈ kept)
    (hnd : (kept.map Col.name).Nodup) :
    getVal (kept.map (fun g => (g.name, castVal g.dtype (getVal r g.name))))
      f.name = castVal f.dtype (getVal r f.name) := by
  induction kept with
  | nil => cases hf
  | cons g rest ih =>
    rcases List.mem_cons.1 hf with hfg | hfr
    · subst hfg
      simp [getVal, List.find?]
    · have hne : g.name ≠ f.name := by
        intro hc
        have : f.name ∈ rest.map Col.name := List.mem_map_of_mem _ hfr
        rw [← hc] at this
        exact (List.nodup_cons.1 hnd).1 this
      have hb : (g.name == f.name) = false := by simpa using hne
      simp only [List.map, getVal, List.find?, hb]
      exact ih hfr (List.nodup_cons.1 hnd).2

/-- C2: the Schema Enforcer is a pure best-effort projection: output
columns are exactly the schema fields present (by name) in the input, in
schema order with the schema's declared types; each output value is the
cast of the matching input value; schema fields absent from the input are
omitted; unlisted input columns are dropped; no failure is possible (the
operation is total). Stated for schemas without duplicate field names (all
catalog schemas). -/
theorem c2_enforce_schema_projection (df : DataFrame) (schema : Schema)
    (hnd : (schema.map Col.name).Nodup) :
    (enforce_schema df schema).cols
        = schema.filter (fun f => df.colNames.contains f.name) ∧
    (∀ n, n ∈ (enforce_schema df schema).colNames ↔
        (n ∈ schema.map Col.name ∧ n ∈ df.colNames)) ∧
    (enforce_schema df schema).rows.length = df.rows.length ∧
    (∀ i, i < df.rows.length → ∀ f ∈ schema, f.name ∈ df.colNames →
      getVal (rowAt (enforce_schema df schema) i) f.name
        = castVal f.dtype (getVal (rowAt df i) f.name)) ∧
    (∀ f ∈ schema, f.name ∉ df.colNames →
      f.name ∉ (enforce_schema df schema).colNames) := by
  have hkept : ∀ f : Col, f ∈ schema.filter (fun f => df.colNames.contains f.name)
      ↔ (f ∈ schema ∧ f.name ∈ df.colNames) := by
    intro f
    rw [List.mem_filter]
    exact and_congr_right (fun _ => contains_iff_mem _ _)
  refine ⟨rfl, ?_, by simp [enforce_schema], ?_, ?_⟩
  · intro n
    constructor
    · intro hn
      obtain ⟨f, hf, hfn⟩ := List.mem_map.1 hn
      obtain ⟨hfs, hfd⟩ := (hkept f).1 hf
      exact ⟨hfn ▸ List.mem_map_of_mem _ hfs, hfn ▸ hfd⟩
    · rintro ⟨hns, hnd2⟩
      obtain ⟨f, hf, hfn⟩ := List.mem_map.1 hns
      exact hfn ▸ List.mem_map_of_mem _ ((hkept f).2 ⟨hf, hfn ▸ hnd2⟩)
  · intro i hi f hf hfd
    have hmem : f ∈ schema.filter (fun f => df.colNames.contains f.name) :=
      (hkept f).2 ⟨hf, hfd⟩
    have hsub : ((schema.filter (fun f => df.colNames.contains f.name)).map
        Col.name).Sublist (schema.map Col.name) :=
      (List.filter_sublist schema).map Col.name
    have hnd3 := hnd.sublist hsub
    show getVal (rowAt { cols := _, rows := df.rows.map _ } i) f.name = _
    unfold rowAt
    rw [rowAt_mapRows _ _ i hi]
    exact getVal_proj _ _ f hmem hnd3
  · intro f hf hfd hc
    obtain ⟨g, hg, hgn⟩ := List.mem_map.1 hc
    obtain ⟨-, hgd⟩ := (hkept g).1 hg
    exact hfd (hgn ▸ hgd)

/-- Witness for C2 at a concrete dataset and schema: a present string
field is kept, a present field is cast to integer, the absent schema
field is omitted, and the output column list is the schema-ordered
present sublist. -/
theorem c2_enforce_schema_projection_witness :
    (enforce_schema exC2df exC2schema).cols
        = [⟨"pk", .dString⟩, ⟨"num", .dInt⟩] ∧
    getVal (rowAt (enforce_schema exC2df exC2schema) 0) "num"
        = castVal .dInt (getVal (rowAt exC2df 0) "num") ∧
    "missing_col" ∉ (enforce_schema exC2df exC2schema).colNames := by
  refine ⟨by decide, ?_, ?_⟩
  · exact (c2_enforce_schema_projection exC2df exC2schema (by decide)).2.2.2.1
      0 (by decide) ⟨"num", .dInt⟩ (by decide) (by decide)
  · exact (c2_enforce_schema_projection exC2df exC2schema (by decide)).2.2.2.2
      ⟨"missing_col", .dInt⟩ (by decide) (by decide)

theorem addMissing_go (ms : List Col) :
    ∀ df : DataFrame, (ms.map Col.name).Nodup →
      (∀ f ∈ ms, f.name ∉ df.colNames) →
      ((ms.foldl (fun d f => withColumnD d f.name .dString (fun _ => none)) df).cols
          = df.cols ++ ms.map (fun f => ⟨f.name, .dString⟩)) ∧
      ((ms.foldl (fun d f => withColumnD d f.name .dString (fun _ => none))
          df).rows.length = df.rows.length) ∧
      (∀ x, x ∉ ms.map Col.name → ∀ i, i < df.rows.length →
        getVal (rowAt (ms.foldl
          (fun d f => withColumnD d f.name .dString (fun _ => none)) df) i) x
            = getVal (rowAt df i) x) ∧
      (∀ f ∈ ms, ∀ i, i < df.rows.length →
        getVal (rowAt (ms.foldl
          (fun d f => withColumnD d f.name .dString (fun _ => none)) df) i) f.name
            = none) := by
  induction ms with
  | nil =>
    intro df _ _
    refine ⟨by simp, rfl, fun x _ i _ => rfl, fun f hf => absurd hf (by simp)⟩
  | cons m rest ih =>
    intro df hnd hms
    have hnotin : m.name ∉ df.colNames := hms m (List.mem_cons_self m rest)
    have hany : df.cols.any (fun c => c.name == m.name) = false := by
      rw [List.any_eq_false]
      intro c hc
      simp only [beq_iff_eq]
      intro hcn
      exact hnotin (hcn ▸ List.mem_map_of_mem _ hc)
    set d1 := withColumnD df m.name .dString (fun _ => none) with hd1
    have hd1cols : d1.cols = df.cols ++ [⟨m.name, .dString⟩] := by
      simp [hd1, withColumnD, updateCols, hany]
    have hd1names : d1.colNames = df.colNames ++ [m.name] := by
      simp [DataFrame.colNames, hd1cols]
    have hd1len : d1.rows.length = df.rows.length := by
      simp [hd1, withColumnD]
    have hd1row : ∀ i, i < df.rows.length →
        rowAt d1 i = setVal (rowAt df i) m.name none := by
      intro i hi
      exact rowAt_mapRows _ _ i hi
    have hmn : m.name ∉ rest.map Col.name := (List.nodup_cons.1 hnd).1
    have hrest : ∀ f ∈ rest, f.name ∉ d1.colNames := by
      intro f hf
      rw [hd1names]
      intro hc
      rcases List.mem_append.1 hc with hc1 | hc2
      · exact hms f (List.mem_cons_of_mem m hf) hc1
      · have : f.name = m.name := by simpa using hc2
        exact hmn (this ▸ List.mem_map_of_mem _ hf)
    obtain ⟨ihc, ihl, ihp, ihn⟩ := ih d1 (List.nodup_cons.1 hnd).2 hrest
    refine ⟨?_, ?_, ?_, ?_⟩
    · show (rest.foldl _ d1).cols = _
      rw [ihc, hd1cols, List.append_assoc]
      rfl
    · show (rest.foldl _ d1).rows.length = _
      rw [ihl, hd1len]
    · intro x hx i hi
      have hxm : x ≠ m.name := by
        intro hc
        exact hx (hc ▸ List.mem_cons_self _ _)
      have hxr : x ∉ rest.map Col.name := fun hc => hx (List.mem_cons_of_mem _ hc)
      show getVal (rowAt (rest.foldl _ d1) i) x = _
      rw [ihp x hxr i (hd1len ▸ hi), hd1row i hi, getVal_setVal_ne _ _ _ _ hxm]
    · intro f hf i hi
      rcases List.mem_cons.1 hf with hfm | hfr
      · subst hfm
        show getVal (rowAt (rest.foldl _ d1) i) f.name = none
        rw [ihp f.name hmn i (hd1len ▸ hi), hd1row i hi, getVal_setVal_same]
      · exact ihn f hfr i (hd1len ▸ hi)

/-- C7 (amended): enforcing the unified output schema's missing-column
fill on a dataset appends every absent unified field as a NULL column, but
always typed *string* (the source casts the NULL literal to string),
regardless of the catalog's declared type for that field. -/
theorem c7_missing_columns_filled_as_string (df : DataFrame) :
    ((add_missing_columns df UNIFIED_SCHEMA).cols
        = df.cols ++ (UNIFIED_SCHEMA.filter
            (fun f => !(df.colNames.contains f.name))).map
            (fun f => ⟨f.name, .dString⟩)) ∧
    (add_missing_columns df UNIFIED_SCHEMA).rows.length = df.rows.length ∧
    (∀ f ∈ UNIFIED_SCHEMA, f.name ∉ df.colNames →
      ((⟨f.name, .dString⟩ : Col) ∈ (add_missing_columns df UNIFIED_SCHEMA).cols ∧
       ∀ i, i < df.rows.length →
         getVal (rowAt (add_missing_columns df UNIFIED_SCHEMA) i) f.name = none)) := by
  have hU : (UNIFIED_SCHEMA.map Col.name).Nodup := by decide
  have hnd : ((UNIFIED_SCHEMA.filter
      (fun f => !(df.colNames.contains f.name))).map Col.name).Nodup :=
    hU.sublist ((List.filter_sublist UNIFIED_SCHEMA).map Col.name)
  have hms : ∀ f ∈ UNIFIED_SCHEMA.filter (fun f => !(df.colNames.contains f.name)),
      f.name ∉ df.colNames := by
    intro f hf
    have := (List.mem_filter.1 hf).2
    intro hc
    rw [(contains_iff_mem _ _).2 hc] at this
    simp at this
  obtain ⟨hc, hl, _, hn⟩ := addMissing_go
    (UNIFIED_SCHEMA.filter (fun f => !(df.colNames.contains f.name))) df hnd hms
  refine ⟨hc, hl, ?_⟩
  intro f hf hfd
  have hfm : f ∈ UNIFIED_SCHEMA.filter (fun f => !(df.colNames.contains f.name)) := by
    rw [List.mem_filter]
    refine ⟨hf, ?_⟩
    simp only [Bool.not_eq_eq_eq_not, Bool.not_true]
    by_contra hcon
    have : df.colNames.contains f.name = true := by
      cases h2 : df.colNames.contains f.name
      · exact absurd h2 hcon
      · rfl
    exact hfd ((contains_iff_mem _ _).1 this)
  constructor
  · have hmem : (⟨f.name, .dString⟩ : Col) ∈ ((UNIFIED_SCHEMA.filter
        (fun f => !(df.colNames.contains f.name))).foldl
        (fun d f => withColumnD d f.name .dString (fun _ => none)) df).cols := by
      rw [hc]
      exact List.mem_append_right _ (List.mem_map_of_mem _ hfm)
    exact hmem
  · exact fun i hi => hn f hfm i hi

/-- Witness for C7 (amended) at a concrete dataset missing the integer
field `no_of_duplicates`: the field is appended string-typed with a NULL
value. -/
theorem c7_missing_columns_filled_as_string_witness :
    (⟨"no_of_duplicates", .dString⟩ : Col)
        ∈ (add_missing_columns exC7df UNIFIED_SCHEMA).cols ∧
    getVal (rowAt (add_missing_columns exC7df UNIFIED_SCHEMA) 0)
        "no_of_duplicates" = none :=
  ⟨((c7_missing_columns_filled_as_string exC7df).2.2 ⟨"no_of_duplicates", .dInt⟩
      (by decide) (by decide)).1,
   ((c7_missing_columns_filled_as_string exC7df).2.2 ⟨"no_of_duplicates", .dInt⟩
      (by decide) (by decide)).2 0 (by decide)⟩

set_option maxRecDepth 8000 in
/-- Counterexample to C7 as stated: the unified catalog declares
`no_of_duplicates` as integer, yet the filled-in column is string-typed,
so the appended NULL is not typed as the catalog's declared type. -/
theorem c7_counterexample :
    (⟨"no_of_duplicates", .dInt⟩ : Col) ∈ UNIFIED_SCHEMA ∧
    "no_of_duplicates" ∉ exC7df.colNames ∧
    (⟨"no_of_duplicates", .dString⟩ : Col)
        ∈ (add_missing_columns exC7df UNIFIED_SCHEMA).cols ∧
    (⟨"no_of_duplicates", .dInt⟩ : Col)
        ∉ (add_missing_columns exC7df UNIFIED_SCHEMA).cols := by
  decide

theorem rename_foldl_spec (mapping : List (String × String)) :
    ∀ df : DataFrame,
      ((mapping.foldl (fun d p => renameCol d p.1 p.2) df).cols
          = df.cols.map (fun c => ⟨applyRen mapping c.name, c.dtype⟩)) ∧
      ((mapping.foldl (fun d p => renameCol d p.1 p.2) df).rows.length
          = df.rows.length) := by
  induction mapping with
  | nil =>
    intro df
    constructor
    · show df.cols = _
      simp [applyRen]
    · rfl
  | cons p rest ih =>
    intro df
    obtain ⟨ihc, ihl⟩ := ih (renameCol df p.1 p.2)
    constructor
    · show (rest.foldl _ (renameCol df p.1 p.2)).cols = _
      rw [ihc]
      show (df.cols.map _).map _ = _
      rw [List.map_map]
      apply List.map_congr_left
      intro c _
      show (⟨applyRen rest (if c.name == p.1 then (⟨p.2, c.dtype⟩ : Col) else c).name,
        (if c.name == p.1 then (⟨p.2, c.dtype⟩ : Col) else c).dtype⟩ : Col) = _
      by_cases hc : c.name = p.1
      · simp [applyRen, hc]
      · simp [applyRen, hc]
    · show (rest.foldl _ (renameCol df p.1 p.2)).rows.length = _
      rw [ihl]
      simp [renameCol]

/-- C8 (amended): both pipelines' rename steps are invoked with
`select=False`, so each keeps every column of its input (renaming the
mapped subset and leaving unmapped columns in place); the material
pipeline does not select only the mapped fields. -/
theorem c8_rename_steps_keep_all_columns :
    (∀ df : DataFrame,
      (materialRenameStep df).cols
          = df.cols.map (fun c => ⟨applyRen LOCAL_MATERIAL_RENAME_MAP c.name,
              c.dtype⟩) ∧
      (materialRenameStep df).rows.length = df.rows.length) ∧
    (∀ df : DataFrame,
      (orderRenameStep df).cols
          = df.cols.map (fun c => ⟨applyRen PROCESS_ORDER_RENAME_MAP c.name,
              c.dtype⟩) ∧
      (orderRenameStep df).rows.length = df.rows.length) :=
  ⟨fun df => rename_foldl_spec LOCAL_MATERIAL_RENAME_MAP df,
   fun df => rename_foldl_spec PROCESS_ORDER_RENAME_MAP df⟩

/-- Counterexample to C8 as stated: the material pipeline's rename step
keeps a column that appears nowhere in the rename map, so it does not
select only the mapped fields. -/
theorem c8_counterexample :
    (⟨"EXTRA_COL", .dString⟩ : Col) ∈ (materialRenameStep exC8df).cols ∧
    "EXTRA_COL" ∉ LOCAL_MATERIAL_RENAME_MAP.map Prod.fst ∧
    "EXTRA_COL" ∉ LOCAL_MATERIAL_RENAME_MAP.map Prod.snd := by
  decide

theorem process_data_str_error (s d b : PyVal) (h1 : s.isStr = false)
    (h2 : s ≠ .pyNone) :
    process_data s d b = .error (typeErrMsg "str" s) := by
  have h2b : (s != PyVal.pyNone) = true := by simpa [bne_iff_ne] using h2
  simp [process_data, h1, h2b]

theorem process_data_df_error (v b : PyVal) (h1 : v.isDF = false)
    (h2 : v ≠ .pyNone) :
    process_data .pyNone v b = .error (typeErrMsg "DataFrame" v) := by
  have h2b : (v != PyVal.pyNone) = true := by simpa [bne_iff_ne] using h2
  simp [process_data, h1, h2b]

theorem process_data_bool_error (a b : PyVal)
    (ha : (a != .pyNone && !a.isDF) = false) (h1 : b.isBool = false)
    (h2 : b ≠ .pyNone) :
    process_data .pyNone a b = .error (typeErrMsg "boolean" b) := by
  have h2b : (b != PyVal.pyNone) = true := by simpa [bne_iff_ne] using h2
  simp [process_data, ha, h1, h2b]

theorem process_data_ok_sdb (s : String) (d : DataFrame) (b : Bool) :
    process_data (.pyStr s) (.pyDF d) (.pyBool b) = .ok () := by
  simp [process_data, PyVal.isStr, PyVal.isDF, PyVal.isBool]

/-- C9 (amended): for every preparer, a wrong-kind argument *other than
None* fails the validation immediately (before any filtering or
transformation), with the error reporting the received type: a non-dataset
in a dataset position, a non-string in the string-configuration position,
a non-boolean in a flag position. None arguments bypass the validation
entirely (each check runs only under `is not None`), so a None flag
silently disables its filter instead of raising. -/
theorem c9_preparer_type_validation :
    (∀ v : PyVal, v.isDF = false → v ≠ .pyNone →
      prep_material_valuation_py v = .error (typeErrMsg "DataFrame" v)) ∧
    (∀ (v f1 f2 : PyVal), v.isDF = false → v ≠ .pyNone →
      prep_plant_data_for_material_py v f1 f2
        = .error (typeErrMsg "DataFrame" v)) ∧
    (∀ v : PyVal, v.isDF = false → v ≠ .pyNone →
      prep_plant_and_branches_py v = .error (typeErrMsg "DataFrame" v)) ∧
    (∀ v : PyVal, v.isDF = false → v ≠ .pyNone →
      prep_valuation_area_py v = .error (typeErrMsg "DataFrame" v)) ∧
    (∀ v : PyVal, v.isDF = false → v ≠ .pyNone →
      prep_company_codes_py v = .error (typeErrMsg "DataFrame" v)) ∧
    (∀ (t : String) (v : PyVal), v.isDF = false → v ≠ .pyNone →
      prep_order_header_data_py t v = .error (typeErrMsg "DataFrame" v)) ∧
    (∀ (v : PyVal) (sch : Schema), v.isDF = false → v ≠ .pyNone →
      dataframe_with_enforced_schema_py v sch
        = .error (typeErrMsg "DataFrame" v)) ∧
    (∀ (s : String) (v f1 f2 : PyVal), v.isDF = false → v ≠ .pyNone →
      prep_general_material_data_py v (.pyStr s) f1 f2
        = .error (typeErrMsg "DataFrame" v)) ∧
    (∀ (c d f1 f2 : PyVal), c.isStr = false → c ≠ .pyNone →
      prep_general_material_data_py d c f1 f2 = .error (typeErrMsg "str" c)) ∧
    (∀ (d : DataFrame) (b f2 : PyVal), b.isBool = false → b ≠ .pyNone →
      prep_plant_data_for_material_py (.pyDF d) b f2
        = .error (typeErrMsg "boolean" b)) ∧
    (∀ (s : String) (d : DataFrame) (b1 : Bool) (b : PyVal),
      b.isBool = false → b ≠ .pyNone →
      prep_general_material_data_py (.pyDF d) (.pyStr s) (.pyBool b1) b
        = .error (typeErrMsg "boolean" b)) := by
  refine ⟨?_, ?_, ?_, ?_, ?_, ?_, ?_, ?_, ?_, ?_, ?_⟩
  · intro v h1 h2
    unfold prep_material_valuation_py
    rw [process_data_df_error v .pyNone h1 h2]
    rfl
  · intro v f1 f2 h1 h2
    unfold prep_plant_data_for_material_py
    rw [process_data_df_error v f1 h1 h2]
    rfl
  · intro v h1 h2
    unfold prep_plant_and_branches_py
    rw [process_data_df_error v .pyNone h1 h2]
    rfl
  · intro v h1 h2
    unfold prep_valuation_area_py
    rw [process_data_df_error v .pyNone h1 h2]
    rfl
  · intro v h1 h2
    unfold prep_company_codes_py
    rw [process_data_df_error v .pyNone h1 h2]
    rfl
  · intro t v h1 h2
    unfold prep_order_header_data_py
    rw [process_data_df_error v .pyNone h1 h2]
    rfl
  · intro v sch h1 h2
    unfold dataframe_with_enforced_schema_py
    rw [process_data_df_error v .pyNone h1 h2]
    rfl
  · intro s v f1 f2 h1 h2
    unfold prep_general_material_data_py
    have : process_data (.pyStr s) v f1 = .error (typeErrMsg "DataFrame" v) := by
      have h2b : (v != PyVal.pyNone) = true := by simpa [bne_iff_ne] using h2
      simp [process_data, PyVal.isStr, h1, h2b]
    rw [this]
    rfl
  · intro c d f1 f2 h1 h2
    unfold prep_general_material_data_py
    rw [process_data_str_error c d f1 h1 h2]
    rfl
  · intro d b f2 h1 h2
    unfold prep_plant_data_for_material_py
    rw [process_data_bool_error (.pyDF d) b (by simp [PyVal.isDF]) h1 h2]
    rfl
  · intro s d b1 b h1 h2
    unfold prep_general_material_data_py
    rw [process_data_ok_sdb s d b1]
    show process_data .pyNone .pyNone b >>= _ = _
    rw [process_data_bool_error .pyNone b (by simp) h1 h2]
    rfl

/-- Witness for C9 (amended) at concrete wrong-kind inputs: an integer in
a dataset position, an integer in the string position, a string in a flag
position; the message spells out the received Python type. -/
theorem c9_preparer_type_validation_witness :
    prep_material_valuation_py (.pyInt 7)
        = .error (typeErrMsg "DataFrame" (.pyInt 7)) ∧
    prep_general_material_data_py (.pyDF exC9df) (.pyInt 3) (.pyBool true)
        (.pyBool true) = .error (typeErrMsg "str" (.pyInt 3)) ∧
    prep_plant_data_for_material_py (.pyDF exC9df) (.pyStr "yes") (.pyBool false)
        = .error (typeErrMsg "boolean" (.pyStr "yes")) ∧
    typeErrMsg "DataFrame" (.pyInt 7)
        = "Invalid type for input. Expected a DataFrame type but we got <class 'int'>." :=
  ⟨c9_preparer_type_validation.1 (.pyInt 7) (by decide) (by decide),
   c9_preparer_type_validation.2.2.2.2.2.2.2.2.1 (.pyInt 3) (.pyDF exC9df)
     (.pyBool true) (.pyBool true) (by decide) (by decide),
   c9_preparer_type_validation.2.2.2.2.2.2.2.2.2.1 exC9df (.pyStr "yes")
     (.pyBool false) (by decide) (by decide),
   by decide⟩

/-- Counterexample to C9 as stated: None is a non-boolean value, yet
passing it as the plant-material preparer's boolean flag raises nothing —
the validation skips None, the deletion filter is silently disabled (the
deletion-flagged row survives into the output), and the preparer returns
normally. -/
theorem c9_counterexample :
    prep_plant_data_for_material_py (.pyDF exC9df) .pyNone (.pyBool false)
        = .ok (enforce_schema exC9df MARC_SCHEMA) ∧
    (enforce_schema exC9df MARC_SCHEMA).rows.length = 1 := by
  exact ⟨rfl, rfl⟩

theorem bind_ok_elim {α β : Type} (x : Except String α) (k : α → Except String β)
    (b : β) (h : (x >>= k) = .ok b) : ∃ a, x = .ok a ∧ k a = .ok b := by
  cases x with
  | error e => exact Except.noConfusion h
  | ok a => exact ⟨a, rfl, h⟩

theorem mem_colNames_withColumnD (df : DataFrame) (n : String) (t : DType)
    (f : Row → Option Val) (x : String) :
    x ∈ (withColumnD df n t f).colNames ↔ (x ∈ df.colNames ∨ x = n) := by
  show x ∈ (updateCols df.cols n t).map Col.name ↔ _
  unfold updateCols
  split
  · rename_i hany
    have hn : n ∈ df.cols.map Col.name := by
      simp only [List.any_eq_true, beq_iff_eq] at hany
      obtain ⟨c, hc, hcn⟩ := hany
      exact hcn ▸ List.mem_map_of_mem _ hc
    have heq : (df.cols.map (fun c =>
        if c.name == n then ({ name := n, dtype := t } : Col) else c)).map Col.name
        = df.cols.map Col.name := by
      rw [List.map_map]
      apply List.map_congr_left
      intro c _
      by_cases hc : c.name = n
      · simp [Function.comp, hc]
      · simp [Function.comp, hc]
    rw [heq]
    constructor
    · exact fun hx => Or.inl hx
    · rintro (hx | rfl)
      · exact hx
      · exact hn
  · simp [DataFrame.colNames]

theorem mem_colNames_withColumnD_of_mem (df : DataFrame) (n : String) (t : DType)
    (f : Row → Option Val) (x : String) (hx : x ∈ df.colNames) :
    x ∈ (withColumnD df n t f).colNames :=
  (mem_colNames_withColumnD df n t f x).2 (Or.inl hx)

theorem mem_of_mem_colNames_withColumnD (df : DataFrame) (n : String) (t : DType)
    (f : Row → Option Val) (x : String)
    (hx : x ∈ (withColumnD df n t f).colNames) (hne : x ≠ n) : x ∈ df.colNames := by
  rcases (mem_colNames_withColumnD df n t f x).1 hx with h | h
  · exact h
  · exact absurd h hne

theorem postOrderPre_ok (df out : DataFrame) (h : postOrderPre df = .ok out) :
    out = postOrderDerived df ∧ "ZZGLTRP_ORIG" ∈ df.colNames ∧
      "LTRMI" ∈ df.colNames := by
  unfold postOrderPre at h
  obtain ⟨u1, hr1, h⟩ := bind_ok_elim _ _ _ h
  obtain ⟨u2, hr2, h⟩ := bind_ok_elim _ _ _ h
  obtain ⟨u3, hr3, h⟩ := bind_ok_elim _ _ _ h
  obtain ⟨u4, hr4, h⟩ := bind_ok_elim _ _ _ h
  obtain ⟨u5, hr5, h⟩ := bind_ok_elim _ _ _ h
  have hmem := (requireCols_ok_iff _ _).1 hr3
  have hz2 : "ZZGLTRP_ORIG" ∈ df.colNames := by
    have h2 := hmem "ZZGLTRP_ORIG" (by simp)
    have h1 := mem_of_mem_colNames_withColumnD _ _ _ _ _ h2 (by decide)
    exact mem_of_mem_colNames_withColumnD _ _ _ _ _ h1 (by decide)
  have hlt2 : "LTRMI" ∈ df.colNames := by
    have h2 := hmem "LTRMI" (by simp)
    have h1 := mem_of_mem_colNames_withColumnD _ _ _ _ _ h2 (by decide)
    exact mem_of_mem_colNames_withColumnD _ _ _ _ _ h1 (by decide)
  simp only [pure, Except.pure, Except.ok.injEq] at h
  exact ⟨h.symm, hz2, hlt2⟩

theorem postOrderFinal_ok (df out : DataFrame) (h : postOrderFinal df = .ok out) :
    out = postOrderFinished df := by
  unfold postOrderFinal at h
  obtain ⟨u1, hr1, h⟩ := bind_ok_elim _ _ _ h
  obtain ⟨u2, hr2, h⟩ := bind_ok_elim _ _ _ h
  obtain ⟨u3, hr3, h⟩ := bind_ok_elim _ _ _ h
  simp only [pure, Except.pure, Except.ok.injEq] at h
  exact h.symm

theorem post_prep_process_order_ok (df out : DataFrame)
    (h : post_prep_process_order df = .ok out) :
    out = postOrderFinished (postOrderDerived df) ∧
      "ZZGLTRP_ORIG" ∈ df.colNames ∧ "LTRMI" ∈ df.colNames := by
  unfold post_prep_process_order at h
  obtain ⟨a, ha, h⟩ := bind_ok_elim _ _ _ h
  obtain ⟨haeq, hzz, hlt⟩ := postOrderPre_ok df a ha
  subst haeq
  have hzzd : "ZZGLTRP_ORIG" ∈ (postOrderDerived df).colNames := by
    unfold postOrderDerived
    exact mem_colNames_withColumnD_of_mem _ _ _ _ _
      (mem_colNames_withColumnD_of_mem _ _ _ _ _
        (mem_colNames_withColumnD_of_mem _ _ _ _ _
          (mem_colNames_withColumnD_of_mem _ _ _ _ _
            (mem_colNames_withColumnD_of_mem _ _ _ _ _ hzz))))
  have hens : ensureZZ (postOrderDerived df) = postOrderDerived df := by
    unfold ensureZZ
    rw [if_pos ((contains_iff_mem _ _).2 hzzd)]
  rw [hens] at h
  exact ⟨postOrderFinal_ok _ _ h, hzz, hlt⟩

/-- C10: an input lacking the `ZZGLTRP_ORIG` column makes the order
Post-Processor fail (the flag derivations reference the column before the
presence check), it never adds the column as NULL; whenever the operation
returns normally its input already contained `ZZGLTRP_ORIG`, and the
add-NULL-column fallback is the identity on every dataset reaching it. -/
theorem c10_zz_fallback_unreachable :
    (∀ df : DataFrame, "ZZGLTRP_ORIG" ∉ df.colNames →
      ∃ e, post_prep_process_order df = .error e) ∧
    (∀ df out : DataFrame, post_prep_process_order df = .ok out →
      "ZZGLTRP_ORIG" ∈ df.colNames) ∧
    (∀ df mid : DataFrame, postOrderPre df = .ok mid → ensureZZ mid = mid) := by
  refine ⟨?_, ?_, ?_⟩
  · intro df hzz
    cases hp : post_prep_process_order df with
    | error e => exact ⟨e, rfl⟩
    | ok out => exact absurd (post_prep_process_order_ok df out hp).2.1 hzz
  · intro df out h
    exact (post_prep_process_order_ok df out h).2.1
  · intro df mid h
    obtain ⟨hm, hzz, -⟩ := postOrderPre_ok df mid h
    subst hm
    have hzzd : "ZZGLTRP_ORIG" ∈ (postOrderDerived df).colNames := by
      unfold postOrderDerived
      exact mem_colNames_withColumnD_of_mem _ _ _ _ _
        (mem_colNames_withColumnD_of_mem _ _ _ _ _
          (mem_colNames_withColumnD_of_mem _ _ _ _ _
            (mem_colNames_withColumnD_of_mem _ _ _ _ _
              (mem_colNames_withColumnD_of_mem _ _ _ _ _ hzz))))
    unfold ensureZZ
    rw [if_pos ((contains_iff_mem _ _).2 hzzd)]

/-- Witness for C10 at concrete inputs: the dataset without
`ZZGLTRP_ORIG` makes the Post-Processor fail, and a successful run's
input contains the column. -/
theorem c10_zz_fallback_unreachable_witness :
    (∃ e, post_prep_process_order exC10bad = .error e) ∧
    "ZZGLTRP_ORIG" ∈ exOrd.colNames :=
  ⟨c10_zz_fallback_unreachable.1 exC10bad (by decide),
   c10_zz_fallback_unreachable.2.1 exOrd exOrdOut rfl⟩

theorem onTimeFlagExpr_eq_spec (a b : Option Val) :
    onTimeFlagExpr a b = onTimeFlagSpec a b := by
  cases a with
  | none => rfl
  | some x =>
    cases b with
    | none => rfl
    | some y =>
      simp only [onTimeFlagExpr, onTimeFlagSpec, valGeB]
      rcases Bool.dichotomy (valLtB x y) with hv | hv <;> simp [hv]

theorem lateBucketExpr_eq_spec (d : Option Val) :
    lateBucketExpr d = some (.vStr (bucketOfDeviationSpec d)) := by
  cases d with
  | none => rfl
  | some x =>
    cases x with
    | vStr s => rfl
    | vInt n =>
      simp only [lateBucketExpr, bucketOfDeviationSpec]
      by_cases h0 : n ≤ 0
      · simp [h0]
      · by_cases h5 : n ≤ 5
        · have h1 : 1 ≤ n := by omega
          simp [h0, h5, h1]
        · by_cases h10 : n ≤ 10
          · have h6 : 6 ≤ n := by omega
            simp [h0, h5, h6, h10]
          · simp [h0, h5, h10, show ¬(1 ≤ n ∧ n ≤ 5) by omega,
              show ¬(6 ≤ n ∧ n ≤ 10) by omega]

/-- C6: in every successful order Post-Processor run, each output row's
`on_time_flag` is 1 when the original finish date is greater than or equal
to the actual finish date source, 0 when strictly less, and NULL when
either date is NULL (the flag is derived from, and the output retains,
the row's unchanged `ZZGLTRP_ORIG` and `LTRMI` values; the row count is
preserved, so rows correspond one-to-one to input rows). -/
theorem c6_on_time_flag_rule (df out : DataFrame)
    (h : post_prep_process_order df = .ok out) :
    out.rows.length = df.rows.length ∧
    ∀ r ∈ out.rows, getVal r "on_time_flag"
        = onTimeFlagSpec (getVal r "ZZGLTRP_ORIG") (getVal r "LTRMI") := by
  obtain ⟨hout, -, -⟩ := post_prep_process_order_ok df out h
  subst hout
  constructor
  · simp [postOrderFinished, postOrderDerived, withColumnD]
  · intro r hr
    simp only [postOrderFinished, postOrderDerived, withColumnD, List.map_map] at hr
    rw [List.mem_map] at hr
    obtain ⟨y, -, rfl⟩ := hr
    simp only [Function.comp]
    simp [getVal_setVal_same, getVal_setVal_ne, onTimeFlagExpr_eq_spec]

/-- Witness for C6 on concrete rows: equal dates give flag 1, an original
date one day before the actual gives 0, a NULL original date gives NULL. -/
theorem c6_on_time_flag_rule_witness :
    getVal (rowAt exOrdOut 0) "on_time_flag" = some (.vInt 1) ∧
    getVal (rowAt exOrdOut 1) "on_time_flag" = some (.vInt 0) ∧
    getVal (rowAt exOrdOut 2) "on_time_flag" = none := by
  have h := (c6_on_time_flag_rule exOrd exOrdOut rfl).2
  refine ⟨?_, ?_, ?_⟩
  · rw [h (rowAt exOrdOut 0) (by decide)]
    decide
  · rw [h (rowAt exOrdOut 1) (by decide)]
    decide
  · rw [h (rowAt exOrdOut 2) (by decide)]
    decide

/-- C5: in every successful order Post-Processor run, each output row's
`late_delivery_bucket` is On-Time for deviation at most 0, Slightly Late
for 1 to 5, Moderately Late for 6 to 10, and Severely Late otherwise —
the otherwise branch covering both deviations above 10 and NULL/undefined
deviations. -/
theorem c5_late_delivery_bucket_rule (df out : DataFrame)
    (h : post_prep_process_order df = .ok out) :
    ∀ r ∈ out.rows, getVal r "late_delivery_bucket"
        = some (.vStr (bucketOfDeviationSpec
            (getVal r "actual_on_time_deviation"))) := by
  obtain ⟨hout, -, -⟩ := post_prep_process_order_ok df out h
  subst hout
  intro r hr
  simp only [postOrderFinished, postOrderDerived, withColumnD, List.map_map] at hr
  rw [List.mem_map] at hr
  obtain ⟨y, -, rfl⟩ := hr
  simp only [Function.comp]
  simp [getVal_setVal_same, getVal_setVal_ne, lateBucketExpr_eq_spec]

/-- Witness for C5 on concrete rows: deviation 0 is On-Time, 5 Slightly
Late, 6 Moderately Late, 11 Severely Late, and a NULL deviation also
lands in Severely Late. -/
theorem c5_late_delivery_bucket_rule_witness :
    getVal (rowAt exOrdOut 0) "late_delivery_bucket" = some (.vStr "On-Time") ∧
    getVal (rowAt exOrdOut 3) "late_delivery_bucket"
        = some (.vStr "Slightly Late") ∧
    getVal (rowAt exOrdOut 4) "late_delivery_bucket"
        = some (.vStr "Moderately Late") ∧
    getVal (rowAt exOrdOut 5) "late_delivery_bucket"
        = some (.vStr "Severely Late") ∧
    getVal (rowAt exOrdOut 2) "actual_on_time_deviation" = none ∧
    getVal (rowAt exOrdOut 2) "late_delivery_bucket"
        = some (.vStr "Severely Late") := by
  have h := c5_late_delivery_bucket_rule exOrd exOrdOut rfl
  refine ⟨?_, ?_, ?_, ?_, by decide, ?_⟩
  · rw [h (rowAt exOrdOut 0) (by decide)]
    decide
  · rw [h (rowAt exOrdOut 3) (by decide)]
    decide
  · rw [h (rowAt exOrdOut 4) (by decide)]
    decide
  · rw [h (rowAt exOrdOut 5) (by decide)]
    decide
  · rw [h (rowAt exOrdOut 2) (by decide)]
    decide

theorem derive_intra_ok (df o : DataFrame)
    (h : derive_intra_and_inter_primary_key df = .ok o) :
    o = withColumnD (withColumnD df "primary_key_intra" .dString (fun r =>
        some (concatWsVal "-" [getVal r "MATNR", getVal r "WERKS"])))
      "primary_key_inter" .dString (fun r =>
        some (concatWsVal "-" [getVal r "SOURCE_SYSTEM_ERP", getVal r "MATNR",
          getVal r "WERKS"])) := by
  unfold derive_intra_and_inter_primary_key at h
  obtain ⟨u1, hr1, h⟩ := bind_ok_elim _ _ _ h
  obtain ⟨u2, hr2, h⟩ := bind_ok_elim _ _ _ h
  simp only [pure, Except.pure, Except.ok.injEq] at h
  exact h.symm

theorem post_prep_local_material_ok (df out : DataFrame)
    (h : post_prep_local_material df = .ok out) :
    out = dropDupOn (localCounted df) ["SOURCE_SYSTEM_ERP", "MATNR", "WERKS"] := by
  unfold post_prep_local_material at h
  obtain ⟨u1, hr1, h⟩ := bind_ok_elim _ _ _ h
  obtain ⟨u2, hr2, h⟩ := bind_ok_elim _ _ _ h
  obtain ⟨d3, hd3, h⟩ := bind_ok_elim _ _ _ h
  obtain ⟨u4, hr4, h⟩ := bind_ok_elim _ _ _ h
  rw [derive_intra_ok _ _ hd3] at h
  simp only [pure, Except.pure, Except.ok.injEq] at h
  exact h.symm

theorem dedup_go (ns : List String) (rows : List Row) :
    ∀ acc : List Row,
      acc.Pairwise (fun a b => rowEqOn ns a b = false) →
      ((rows.foldl (dedupStep ns) acc).Pairwise
          (fun a b => rowEqOn ns a b = false) ∧
        ∀ r ∈ rows.foldl (dedupStep ns) acc, r ∈ acc ∨ r ∈ rows) := by
  induction rows with
  | nil =>
    intro acc hp
    exact ⟨hp, fun r hr => Or.inl hr⟩
  | cons x rest ih =>
    intro acc hp
    simp only [List.foldl_cons]
    rcases Bool.dichotomy (acc.any (fun s => rowEqOn ns s x)) with hany | hany
    · have hfalse : ∀ s ∈ acc, rowEqOn ns s x = false := by
        intro s hs
        rcases Bool.dichotomy (rowEqOn ns s x) with hb | hb
        · exact hb
        · have htrue : acc.any (fun s => rowEqOn ns s x) = true :=
            List.any_eq_true.2 ⟨s, hs, hb⟩
          rw [htrue] at hany
          exact Bool.noConfusion hany
      have hstep : dedupStep ns acc x = acc ++ [x] := by
        unfold dedupStep
        rw [if_neg (by rw [hany]; simp)]
      rw [hstep]
      have hp2 : (acc ++ [x]).Pairwise (fun a b => rowEqOn ns a b = false) := by
        rw [List.pairwise_append]
        refine ⟨hp, List.pairwise_singleton _ _, ?_⟩
        intro a ha b hb
        rw [List.mem_singleton] at hb
        subst hb
        exact hfalse a ha
      obtain ⟨hp3, hm⟩ := ih (acc ++ [x]) hp2
      refine ⟨hp3, fun r hr => ?_⟩
      rcases hm r hr with hracc | hrrest
      · rcases List.mem_append.1 hracc with h1 | h2
        · exact Or.inl h1
        · rw [List.mem_singleton] at h2
          exact Or.inr (h2 ▸ List.mem_cons_self x rest)
      · exact Or.inr (List.mem_cons_of_mem x hrrest)
    · have hstep : dedupStep ns acc x = acc := by
        unfold dedupStep
        rw [if_pos hany]
      rw [hstep]
      obtain ⟨hp2, hm⟩ := ih acc hp
      exact ⟨hp2, fun r hr => (hm r hr).imp id (List.mem_cons_of_mem x)⟩

theorem dropDupOn_pairwise (df : DataFrame) (ns : List String) :
    (dropDupOn df ns).rows.Pairwise (fun a b => rowEqOn ns a b = false) :=
  (dedup_go ns df.rows [] List.Pairwise.nil).1

theorem dropDupOn_subset (df : DataFrame) (ns : List String) :
    ∀ r ∈ (dropDupOn df ns).rows, r ∈ df.rows := by
  intro r hr
  rcases (dedup_go ns df.rows [] List.Pairwise.nil).2 r hr with h | h
  · cases h
  · exact h

theorem rowEqOn_iff_matKey (a b : Row) :
    rowEqOn ["SOURCE_SYSTEM_ERP", "MATNR", "WERKS"] a b = true
      ↔ matKey a = matKey b := by
  simp [rowEqOn, matKey]

theorem matKey_setVal_cnt (x : Row) (v : Option Val) :
    matKey (setVal x "no_of_duplicates" v) = matKey x := by
  simp [matKey, getVal_setVal_ne _ _ _ _ (by decide : "SOURCE_SYSTEM_ERP" ≠ "no_of_duplicates"),
    getVal_setVal_ne _ _ _ _ (by decide : "MATNR" ≠ "no_of_duplicates"),
    getVal_setVal_ne _ _ _ _ (by decide : "WERKS" ≠ "no_of_duplicates")]

theorem matKey_localDeriv (y : Row) :
    matKey (setVal (setVal (setVal (setVal y
      "mtl_plant_emd" (some (concatWsVal "-" [getVal y "WERKS", getVal y "NAME1"])))
      "global_mtl_id" (coalesceVal [getVal (setVal y "mtl_plant_emd"
        (some (concatWsVal "-" [getVal y "WERKS", getVal y "NAME1"]))) "MATNR",
        getVal (setVal y "mtl_plant_emd" (some (concatWsVal "-" [getVal y "WERKS",
          getVal y "NAME1"]))) "GLOBAL_MATERIAL_NUMBER"]))
      "primary_key_intra" v1) "primary_key_inter" v2) = matKey y := by
  simp [matKey, getVal_setVal_ne, String.reduceEq]

/-- C1: in every successful material Post-Processor run, no two output
rows share the composite key (SOURCE_SYSTEM_ERP, MATNR, WERKS), and each
surviving row's `no_of_duplicates` equals the number of input rows sharing
that row's composite key, which is at least 1. -/
theorem c1_material_dedup_and_count (df out : DataFrame)
    (h : post_prep_local_material df = .ok out) :
    out.rows.Pairwise (fun a b => matKey a ≠ matKey b) ∧
    ∀ r ∈ out.rows,
      getVal r "no_of_duplicates"
          = some (.vInt (df.rows.countP (fun s => matKey s == matKey r))) ∧
      1 ≤ df.rows.countP (fun s => matKey s == matKey r) := by
  rw [post_prep_local_material_ok df out h]
  constructor
  · refine (dropDupOn_pairwise (localCounted df)
      ["SOURCE_SYSTEM_ERP", "MATNR", "WERKS"]).imp ?_
    intro a b hab hk
    rw [← rowEqOn_iff_matKey a b] at hk
    rw [hk] at hab
    exact Bool.noConfusion hab
  · intro r hr
    have hrc : r ∈ (localCounted df).rows := dropDupOn_subset _ _ r hr
    unfold localCounted withColumnD at hrc
    rw [List.mem_map] at hrc
    obtain ⟨x, hx, rfl⟩ := hrc
    have hkey : matKey (setVal x "no_of_duplicates" (some (.vInt
        ((localDerived df).rows.countP (fun s => matKey s == matKey x)))))
        = matKey x := matKey_setVal_cnt x _
    rw [getVal_setVal_same, hkey]
    dsimp only
    have hcnt : (localDerived df).rows.countP (fun s => matKey s == matKey x)
        = df.rows.countP (fun s => matKey s == matKey x) := by
      unfold localDerived withColumnD
      simp only [List.map_map, List.countP_map]
      apply List.countP_congr
      intro y _
      simp only [Function.comp]
      rw [matKey_localDeriv y]
    rw [hcnt]
    refine ⟨rfl, ?_⟩
    unfold localDerived withColumnD at hx
    simp only [List.map_map, List.mem_map] at hx
    obtain ⟨y, hy, hyx⟩ := hx
    have hky : matKey y = matKey x := by
      rw [← hyx]
      simp only [Function.comp]
      exact (matKey_localDeriv y).symm
    have : 0 < df.rows.countP (fun s => matKey s == matKey x) := by
      rw [List.countP_pos_iff]
      exact ⟨y, hy, by rw [hky]; exact beq_self_eq_true _⟩
    omega

/-- Witness for C1 at a concrete integrated dataset with two rows sharing
the composite key (S1, M1, P1) and one row keyed (S1, M1, P2): the
surviving (S1, M1, P1) row reports 2 collapsed raw rows, keys are unique,
and the output has exactly two rows. -/
theorem c1_material_dedup_and_count_witness :
    getVal (rowAt exC1out 0) "no_of_duplicates"
        = some (.vInt (exC1.rows.countP (fun s => matKey s == matKey (rowAt exC1out 0)))) ∧
    1 ≤ exC1.rows.countP (fun s => matKey s == matKey (rowAt exC1out 0)) ∧
    exC1.rows.countP (fun s => matKey s == matKey (rowAt exC1out 0)) = 2 ∧
    matKey (rowAt exC1out 0) ≠ matKey (rowAt exC1out 1) ∧
    exC1out.rows.length = 2 := by
  have h := (c1_material_dedup_and_count exC1 exC1out rfl).2 (rowAt exC1out 0)
    (by decide)
  exact ⟨h.1, h.2, by decide, by decide, by decide⟩

theorem charListLtB_irrefl : ∀ a : List Char, charListLtB a a = false := by
  intro a
  induction a with
  | nil => rfl
  | cons x xs ih => simp [charListLtB, Nat.lt_irrefl, ih]

theorem charListLtB_trans : ∀ a b c : List Char, charListLtB a b = true →
    charListLtB b c = true → charListLtB a c = true := by
  intro a
  induction a with
  | nil =>
    intro b c hab hbc
    cases b with
    | nil => exact Bool.noConfusion hab
    | cons y ys =>
      cases c with
      | nil => exact Bool.noConfusion hbc
      | cons z zs => rfl
  | cons x xs ih =>
    intro b c hab hbc
    cases b with
    | nil => exact Bool.noConfusion hab
    | cons y ys =>
      cases c with
      | nil => exact Bool.noConfusion hbc
      | cons z zs =>
        simp only [charListLtB] at hab hbc ⊢
        by_cases h1 : x.toNat < y.toNat
        · by_cases h2 : y.toNat < z.toNat
          · rw [if_pos (Nat.lt_trans h1 h2)]
          · by_cases h3 : z.toNat < y.toNat
            · rw [if_neg h2, if_pos h3] at hbc
              exact Bool.noConfusion hbc
            · rw [if_pos (show x.toNat < z.toNat by omega)]
        · by_cases h3 : y.toNat < x.toNat
          · rw [if_neg h1, if_pos h3] at hab
            exact Bool.noConfusion hab
          · rw [if_neg h1, if_neg h3] at hab
            by_cases h2 : y.toNat < z.toNat
            · rw [if_pos (show x.toNat < z.toNat by omega)]
            · by_cases h4 : z.toNat < y.toNat
              · rw [if_neg h2, if_pos h4] at hbc
                exact Bool.noConfusion hbc
              · rw [if_neg h2, if_neg h4] at hbc
                rw [if_neg (show ¬ x.toNat < z.toNat by omega),
                  if_neg (show ¬ z.toNat < x.toNat by omega)]
                exact ih ys zs hab hbc

theorem valLtB_irrefl (x : Val) : valLtB x x = false := by
  cases x with
  | vStr s => simp [valLtB, strLtB, charListLtB_irrefl]
  | vInt n => simp [valLtB]

theorem valLtB_trans (x y z : Val) (h1 : valLtB x y = true)
    (h2 : valLtB y z = true) : valLtB x z = true := by
  cases x <;> cases y <;> cases z <;> simp_all [valLtB, strLtB]
  · exact charListLtB_trans _ _ _ h1 h2
  · omega

theorem ordGtB_irrefl (a : Option Val) : ordGtB a a = false := by
  cases a with
  | none => rfl
  | some x => simp [ordGtB, valLtB_irrefl]

theorem ordGtB_trans (a b c : Option Val) (h1 : ordGtB a b = true)
    (h2 : ordGtB b c = true) : ordGtB a c = true := by
  cases a with
  | none => exact Bool.noConfusion h1
  | some x =>
    cases c with
    | none => rfl
    | some z =>
      cases b with
      | none => exact Bool.noConfusion h2
      | some y =>
        simp only [ordGtB] at h1 h2 ⊢
        exact valLtB_trans z y x h2 h1

theorem pick_go (keyOf : Row → List (Option Val)) (ord : Row → Option Val)
    (rows : List Row) :
    ∀ acc seen : List Row,
      acc.Pairwise (fun a b => keyOf a ≠ keyOf b) →
      (∀ s ∈ acc, s ∈ seen) →
      (∀ s ∈ acc, ∀ x ∈ seen, keyOf x = keyOf s →
        ordGtB (ord x) (ord s) = false) →
      (∀ x ∈ seen, ∃ s ∈ acc, keyOf s = keyOf x) →
      ((rows.foldl (pickStep keyOf ord) acc).Pairwise
          (fun a b => keyOf a ≠ keyOf b) ∧
       (∀ s ∈ rows.foldl (pickStep keyOf ord) acc, s ∈ seen ++ rows) ∧
       (∀ s ∈ rows.foldl (pickStep keyOf ord) acc, ∀ x ∈ seen ++ rows,
         keyOf x = keyOf s → ordGtB (ord x) (ord s) = false) ∧
       (∀ x ∈ seen ++ rows, ∃ s ∈ rows.foldl (pickStep keyOf ord) acc,
         keyOf s = keyOf x)) := by
  induction rows with
  | nil =>
    intro acc seen hp hmem hmax hcov
    simp only [List.foldl_nil, List.append_nil]
    exact ⟨hp, hmem, hmax, hcov⟩
  | cons r rest ih =>
    intro acc seen hp hmem hmax hcov
    simp only [List.foldl_cons]
    have hassoc : seen ++ r :: rest = (seen ++ [r]) ++ rest := by simp
    rw [hassoc]
    rcases Bool.dichotomy (acc.any (fun s => keyOf s == keyOf r)) with hany | hany
    · -- no kept row shares the key: append r
      have hnotin : ∀ s ∈ acc, keyOf s ≠ keyOf r := by
        intro s hs hc
        have : acc.any (fun s => keyOf s == keyOf r) = true :=
          List.any_eq_true.2 ⟨s, hs, by rw [hc]; exact beq_self_eq_true _⟩
        rw [this] at hany
        exact Bool.noConfusion hany
      have hstep : pickStep keyOf ord acc r = acc ++ [r] := by
        unfold pickStep
        rw [if_neg (by rw [hany]; simp)]
      rw [hstep]
      apply ih (acc ++ [r]) (seen ++ [r])
      · rw [List.pairwise_append]
        refine ⟨hp, List.pairwise_singleton _ _, ?_⟩
        intro a ha b hb
        rw [List.mem_singleton] at hb
        subst hb
        exact hnotin a ha
      · intro s hs
        rcases List.mem_append.1 hs with h1 | h1
        · exact List.mem_append_left _ (hmem s h1)
        · exact List.mem_append_right _ h1
      · intro s hs x hx hk
        rcases List.mem_append.1 hs with hsacc | hsr
        · rcases List.mem_append.1 hx with hxseen | hxr
          · exact hmax s hsacc x hxseen hk
          · rw [List.mem_singleton] at hxr
            subst hxr
            exact absurd hk.symm (hnotin s hsacc)
        · rw [List.mem_singleton] at hsr
          subst hsr
          rcases List.mem_append.1 hx with hxseen | hxr
          · obtain ⟨t, ht, hkt⟩ := hcov x hxseen
            exact absurd (hkt.trans hk) (hnotin t ht)
          · rw [List.mem_singleton] at hxr
            subst hxr
            exact ordGtB_irrefl _
      · intro x hx
        rcases List.mem_append.1 hx with hxseen | hxr
        · obtain ⟨t, ht, hkt⟩ := hcov x hxseen
          exact ⟨t, List.mem_append_left _ ht, hkt⟩
        · rw [List.mem_singleton] at hxr
          subst hxr
          exact ⟨x, List.mem_append_right _ (List.mem_singleton_self x), rfl⟩
    · -- a kept row shares the key: keep the better of the two
      have hstep : pickStep keyOf ord acc r = acc.map (fun s =>
          if keyOf s == keyOf r then
            (if ordGtB (ord r) (ord s) then r else s) else s) := by
        unfold pickStep
        rw [if_pos hany]
      rw [hstep]
      set g : Row → Row := fun s =>
        if keyOf s == keyOf r then (if ordGtB (ord r) (ord s) then r else s) else s
        with hg
      have hgkey : ∀ s, keyOf (g s) = keyOf s := by
        intro s
        simp only [hg]
        by_cases hk : keyOf s == keyOf r
        · have hkeq : keyOf s = keyOf r := by
            rwa [beq_iff_eq] at hk
          rw [if_pos hk]
          by_cases ho : ordGtB (ord r) (ord s) = true
          · rw [if_pos ho, hkeq]
          · rw [if_neg ho]
        · rw [if_neg hk]
      apply ih (acc.map g) (seen ++ [r])
      · refine List.Pairwise.map g ?_ hp
        intro a b hab
        rw [hgkey a, hgkey b]
        exact hab
      · intro s hs
        rw [List.mem_map] at hs
        obtain ⟨a, ha, rfl⟩ := hs
        simp only [hg]
        by_cases hk : keyOf a == keyOf r
        · rw [if_pos hk]
          by_cases ho : ordGtB (ord r) (ord a) = true
          · rw [if_pos ho]
            exact List.mem_append_right _ (List.mem_singleton_self r)
          · rw [if_neg ho]
            exact List.mem_append_left _ (hmem a ha)
        · rw [if_neg hk]
          exact List.mem_append_left _ (hmem a ha)
      · intro s hs x hx hk
        rw [List.mem_map] at hs
        obtain ⟨a, ha, rfl⟩ := hs
        rw [hgkey a] at hk
        rcases List.mem_append.1 hx with hxseen | hxr
        · -- x previously seen
          have hxa : ordGtB (ord x) (ord a) = false := hmax a ha x hxseen hk
          simp only [hg]
          by_cases hka : keyOf a == keyOf r
          · rw [if_pos hka]
            by_cases ho : ordGtB (ord r) (ord a) = true
            · rw [if_pos ho]
              rcases Bool.dichotomy (ordGtB (ord x) (ord r)) with hb | hb
              · exact hb
              · have := ordGtB_trans _ _ _ hb ho
                rw [this] at hxa
                exact Bool.noConfusion hxa
            · rw [if_neg ho]
              exact hxa
          · rw [if_neg hka]
            exact hxa
        · -- x is the new row r
          rw [List.mem_singleton] at hxr
          rw [hxr]
          simp only [hg]
          by_cases hka : keyOf a == keyOf r
          · rw [if_pos hka]
            rcases Bool.dichotomy (ordGtB (ord r) (ord a)) with ho | ho
            · rw [if_neg (by rw [ho]; simp)]
              exact ho
            · rw [if_pos ho]
              exact ordGtB_irrefl _
          · rw [beq_iff_eq] at hka
            rw [hxr] at hk
            exact absurd hk.symm hka
      · intro x hx
        rcases List.mem_append.1 hx with hxseen | hxr
        · obtain ⟨t, ht, hkt⟩ := hcov x hxseen
          exact ⟨g t, List.mem_map_of_mem g ht, (hgkey t).trans hkt⟩
        · rw [List.mem_singleton] at hxr
          subst hxr
          rw [List.any_eq_true] at hany
          obtain ⟨t, ht, hkt⟩ := hany
          rw [beq_iff_eq] at hkt
          exact ⟨g t, List.mem_map_of_mem g ht, (hgkey t).trans hkt⟩

theorem prep_material_valuation_ok (df out : DataFrame)
    (h : prep_material_valuation df = .ok out) :
    out = dropDupAll (enforce_schema
      { cols := df.cols, rows := mbewSurvivors df } MBEW_SCHEMA) := by
  unfold prep_material_valuation at h
  obtain ⟨u1, hr1, h⟩ := bind_ok_elim _ _ _ h
  obtain ⟨u2, hr2, h⟩ := bind_ok_elim _ _ _ h
  obtain ⟨u3, hr3, h⟩ := bind_ok_elim _ _ _ h
  simp only [pure, Except.pure, Except.ok.injEq] at h
  exact h.symm

theorem mbewSurvivors_spec (df : DataFrame) :
    (mbewSurvivors df).Pairwise (fun a b => mbewKey a ≠ mbewKey b) ∧
    (∀ s ∈ mbewSurvivors df, s ∈ mbewFiltered df) ∧
    (∀ s ∈ mbewSurvivors df, ∀ x ∈ mbewFiltered df, mbewKey x = mbewKey s →
      ordGtB (laeprOf x) (laeprOf s) = false) := by
  have h0 := pick_go mbewKey laeprOf (mbewFiltered df) [] [] List.Pairwise.nil
    (by intro s hs; cases hs) (by intro s hs; cases hs) (by intro x hx; cases hx)
  simp only [List.nil_append] at h0
  exact ⟨h0.1, h0.2.1, h0.2.2.1⟩

/-- C3: the valuation preparer removes every row with a non-NULL deletion
flag (LVORM) or non-NULL valuation type (BWTAR); among the remaining rows
at most one survives the window deduplication per (MATNR, BWKEY) group
(its output is that survivor set, schema-enforced and exact-duplicate
dropped), and each survivor's LAEPR is not beaten by any other row of its
group under the descending ranking. -/
theorem c3_valuation_dedup_highest_price (df out : DataFrame)
    (h : prep_material_valuation df = .ok out) :
    out = dropDupAll (enforce_schema
        { cols := df.cols, rows := mbewSurvivors df } MBEW_SCHEMA) ∧
    (mbewSurvivors df).Pairwise (fun a b => mbewKey a ≠ mbewKey b) ∧
    (∀ s ∈ mbewSurvivors df, s ∈ df.rows ∧ getVal s "LVORM" = none ∧
      getVal s "BWTAR" = none) ∧
    (∀ s ∈ mbewSurvivors df, ∀ x ∈ mbewFiltered df, mbewKey x = mbewKey s →
      ordGtB (laeprOf x) (laeprOf s) = false) := by
  obtain ⟨hpw, hmem, hmax⟩ := mbewSurvivors_spec df
  refine ⟨prep_material_valuation_ok df out h, hpw, ?_, hmax⟩
  intro s hs
  have hf := hmem s hs
  unfold mbewFiltered at hf
  rw [List.mem_filter] at hf
  obtain ⟨hf1, hb⟩ := hf
  rw [List.mem_filter] at hf1
  obtain ⟨hrow, hl⟩ := hf1
  rw [beq_iff_eq] at hl hb
  exact ⟨hrow, hl, hb⟩

/-- Witness for C3 at the concrete two-price scenario: of the two
non-deleted, non-split rows for (M1, V1) with prices 100 and 150, exactly
one row survives into the output and it is the one carrying price 150
(moving-average price 15); the 100-priced row does not outrank it. -/
theorem c3_valuation_dedup_highest_price_witness :
    exC3out.rows.length = 1 ∧
    getVal (rowAt exC3out 0) "VERPR" = some (.vInt 15) ∧
    getVal (rowAt exC3out 0) "MATNR" = some (.vStr "M1") ∧
    laeprOf ((mbewSurvivors exC3).getD 0 []) = some (.vInt 150) ∧
    laeprOf ((mbewFiltered exC3).getD 0 []) = some (.vInt 100) ∧
    ordGtB (laeprOf ((mbewFiltered exC3).getD 0 []))
        (laeprOf ((mbewSurvivors exC3).getD 0 [])) = false := by
  refine ⟨by decide, by decide, by decide, by decide, by decide, ?_⟩
  exact (c3_valuation_dedup_highest_price exC3 exC3out rfl).2.2.2
    ((mbewSurvivors exC3).getD 0 []) (by decide)
    ((mbewFiltered exC3).getD 0 []) (by decide) (by decide)

theorem getVal_cons (m : String) (v : Option Val) (t : Row) (n : String) :
    getVal ((m, v) :: t) n = if (m == n) = true then v else getVal t n := by
  rcases Bool.dichotomy (m == n) with hb | hb <;>
    simp [getVal, List.find?, hb]

theorem getVal_projNames (lr : Row) (names : List String) (rest : Row)
    (n : String) (hn : n ∈ names) :
    getVal (names.map (fun m => (m, getVal lr m)) ++ rest) n = getVal lr n := by
  induction names with
  | nil => cases hn
  | cons m ms ih =>
    simp only [List.map_cons, List.cons_append]
    rw [getVal_cons]
    by_cases hm : m = n
    · rw [if_pos (by rw [hm]; exact beq_self_eq_true n), hm]
    · rw [if_neg (by simpa using hm)]
      exact ih (by
        rcases List.mem_cons.1 hn with h | h
        · exact absurd h.symm hm
        · exact h)

theorem getVal_skipNames (lr : Row) (names : List String) (rest : Row)
    (n : String) (hn : n ∉ names) :
    getVal (names.map (fun m => (m, getVal lr m)) ++ rest) n = getVal rest n := by
  induction names with
  | nil => rfl
  | cons m ms ih =>
    simp only [List.map_cons, List.cons_append]
    rw [getVal_cons]
    rw [if_neg (by
      simp only [beq_iff_eq]
      intro hc
      exact hn (hc ▸ List.mem_cons_self m ms))]
    exact ih (fun hc => hn (List.mem_cons_of_mem m hc))

theorem getVal_allNone (extras : List Col) (n : String) :
    getVal (extras.map (fun c => (c.name, (none : Option Val)))) n = none := by
  induction extras with
  | nil => rfl
  | cons c cs ih =>
    simp only [List.map_cons]
    rw [getVal_cons]
    rcases Bool.dichotomy (c.name == n) with hb | hb
    · rw [if_neg (by rw [hb]; simp)]
      exact ih
    · rw [if_pos hb]

theorem leftJoin_preserves_left (l r : DataFrame) (ks : List String) (lr : Row)
    (hlr : lr ∈ l.rows) :
    ∃ out ∈ (leftJoin l r ks).rows, ∀ n ∈ l.colNames,
      getVal out n = getVal lr n := by
  by_cases hms : (r.rows.filter (fun rr => matchesRow ks lr rr)).isEmpty = true
  · refine ⟨joinedRow l.colNames (extraCols r ks) lr none, ?_, ?_⟩
    · show _ ∈ l.rows.flatMap _
      rw [List.mem_flatMap]
      refine ⟨lr, hlr, ?_⟩
      rw [if_pos hms]
      exact List.mem_singleton_self _
    · intro n hn
      exact getVal_projNames lr l.colNames _ n hn
  · obtain ⟨rr0, hrr0⟩ := List.exists_mem_of_ne_nil
      (r.rows.filter (fun rr => matchesRow ks lr rr))
      (fun hc => hms (by rw [hc]; rfl))
    refine ⟨joinedRow l.colNames (extraCols r ks) lr (some rr0), ?_, ?_⟩
    · show _ ∈ l.rows.flatMap _
      rw [List.mem_flatMap]
      refine ⟨lr, hlr, ?_⟩
      rw [if_neg hms]
      exact List.mem_map_of_mem _ hrr0
    · intro n hn
      exact getVal_projNames lr l.colNames _ n hn

theorem leftJoin_colNames_sub (l r : DataFrame) (ks : List String) :
    ∀ n ∈ l.colNames, n ∈ (leftJoin l r ks).colNames := by
  intro n hn
  show n ∈ (l.cols ++ extraCols r ks).map Col.name
  rw [List.map_append]
  exact List.mem_append_left _ hn

theorem flatMap_length_ge (f : Row → List Row) (L : List Row)
    (hf : ∀ a ∈ L, 1 ≤ (f a).length) : L.length ≤ (L.flatMap f).length := by
  induction L with
  | nil => simp
  | cons a rest ih =>
    simp only [List.flatMap_cons, List.length_append, List.length_cons]
    have h1 := hf a (List.mem_cons_self a rest)
    have h2 := ih (fun b hb => hf b (List.mem_cons_of_mem a hb))
    omega

theorem leftJoin_length_ge (l r : DataFrame) (ks : List String) :
    l.rows.length ≤ (leftJoin l r ks).rows.length := by
  show l.rows.length ≤ (l.rows.flatMap _).length
  apply flatMap_length_ge
  intro lr _
  by_cases hms : (r.rows.filter (fun rr => matchesRow ks lr rr)).isEmpty = true
  · rw [if_pos hms]
    exact le_refl 1
  · rw [if_neg hms]
    rw [List.length_map]
    have : r.rows.filter (fun rr => matchesRow ks lr rr) ≠ [] := by
      intro hc
      exact hms (by rw [hc]; rfl)
    cases hl : (r.rows.filter (fun rr => matchesRow ks lr rr)) with
    | nil => exact absurd hl this
    | cons a b => simp [hl]

theorem leftJoin_no_match_nulls (l r : DataFrame) (ks : List String) (lr : Row)
    (hlr : lr ∈ l.rows)
    (hnm : (r.rows.filter (fun rr => matchesRow ks lr rr)).isEmpty = true) :
    ∃ out ∈ (leftJoin l r ks).rows,
      (∀ n ∈ l.colNames, getVal out n = getVal lr n) ∧
      (∀ c ∈ extraCols r ks, c.name ∉ l.colNames → getVal out c.name = none) := by
  refine ⟨joinedRow l.colNames (extraCols r ks) lr none, ?_, ?_, ?_⟩
  · show _ ∈ l.rows.flatMap _
    rw [List.mem_flatMap]
    refine ⟨lr, hlr, ?_⟩
    rw [if_pos hnm]
    exact List.mem_singleton_self _
  · intro n hn
    exact getVal_projNames lr l.colNames _ n hn
  · intro c hc hnotin
    show getVal (l.colNames.map (fun m => (m, getVal lr m)) ++ _) c.name = none
    rw [getVal_skipNames lr l.colNames _ c.name hnotin]
    exact getVal_allNone (extraCols r ks) c.name

/-- C4 (amended): every row of the base PlantMaterial dataset appears in
the Integrator's output (no base row is ever dropped: at least one output
row agrees with it on every base column, and the output has at least as
many rows as the base), and a base-side row without a match in a joined
entity acquires NULL for that entity's appended fields. The per-key output
cardinality is *not* always unchanged: a joined entity holding several
rows for one join key multiplies the matching base rows (see the
counterexample), so the original claim's cardinality clause is weakened to
this lower bound. -/
theorem c4_integrator_left_preserving :
    (∀ sap_marc sap_mara sap_mbew sap_t001w sap_t001k sap_t001 : DataFrame,
      (∀ lr ∈ sap_marc.rows,
        ∃ out ∈ (integrate_data sap_marc sap_mara sap_mbew sap_t001w sap_t001k
            sap_t001).rows,
          ∀ n ∈ sap_marc.colNames, getVal out n = getVal lr n) ∧
      sap_marc.rows.length ≤ (integrate_data sap_marc sap_mara sap_mbew
        sap_t001w sap_t001k sap_t001).rows.length) ∧
    (∀ (l r : DataFrame) (ks : List String), ∀ lr ∈ l.rows,
      (r.rows.filter (fun rr => matchesRow ks lr rr)).isEmpty = true →
      ∃ out ∈ (leftJoin l r ks).rows,
        (∀ n ∈ l.colNames, getVal out n = getVal lr n) ∧
        (∀ c ∈ extraCols r ks, c.name ∉ l.colNames →
          getVal out c.name = none)) := by
  constructor
  · intro marc mara mbew t1w t1k t1
    constructor
    · intro lr hlr
      obtain ⟨o1, ho1m, ho1⟩ := leftJoin_preserves_left marc mara ["MATNR"] lr hlr
      obtain ⟨o2, ho2m, ho2⟩ := leftJoin_preserves_left _ t1w ["MANDT", "WERKS"]
        o1 ho1m
      obtain ⟨o3, ho3m, ho3⟩ := leftJoin_preserves_left _ mbew
        ["MANDT", "MATNR", "BWKEY"] o2 ho2m
      obtain ⟨o4, ho4m, ho4⟩ := leftJoin_preserves_left _ t1k ["MANDT", "BWKEY"]
        o3 ho3m
      obtain ⟨o5, ho5m, ho5⟩ := leftJoin_preserves_left _ t1 ["MANDT", "BUKRS"]
        o4 ho4m
      refine ⟨o5, ho5m, ?_⟩
      intro n hn
      have h1 := leftJoin_colNames_sub marc mara ["MATNR"] n hn
      have h2 := leftJoin_colNames_sub _ t1w ["MANDT", "WERKS"] n h1
      have h3 := leftJoin_colNames_sub _ mbew ["MANDT", "MATNR", "BWKEY"] n h2
      have h4 := leftJoin_colNames_sub _ t1k ["MANDT", "BWKEY"] n h3
      calc getVal o5 n = getVal o4 n := ho5 n h4
        _ = getVal o3 n := ho4 n h3
        _ = getVal o2 n := ho3 n h2
        _ = getVal o1 n := ho2 n h1
        _ = getVal lr n := ho1 n hn
    · exact le_trans (leftJoin_length_ge marc mara ["MATNR"])
        (le_trans (leftJoin_length_ge _ t1w ["MANDT", "WERKS"])
          (le_trans (leftJoin_length_ge _ mbew ["MANDT", "MATNR", "BWKEY"])
            (le_trans (leftJoin_length_ge _ t1k ["MANDT", "BWKEY"])
              (leftJoin_length_ge _ t1 ["MANDT", "BUKRS"]))))
  · intro l r ks lr hlr hnm
    exact leftJoin_no_match_nulls l r ks lr hlr hnm

/-- Witness for C4 (amended) at the concrete prepared datasets: the single
base row survives into the output with its base columns intact. -/
theorem c4_integrator_left_preserving_witness :
    (∃ out ∈ integratedC4.rows, ∀ n ∈ marcPrepC4.colNames,
      getVal out n = getVal (rowAt marcPrepC4 0) n) ∧
    marcPrepC4.rows.length ≤ integratedC4.rows.length :=
  ⟨(c4_integrator_left_preserving.1 marcPrepC4 maraPrepC4 mbewPrepC4 t001wPrepC4
      t001kPrepC4 t001PrepC4).1 (rowAt marcPrepC4 0) (by decide),
   (c4_integrator_left_preserving.1 marcPrepC4 maraPrepC4 mbewPrepC4 t001wPrepC4
      t001kPrepC4 t001PrepC4).2⟩

/-- Counterexample to C4 as stated: with prepared inputs whose MARA side
holds two rows for material M1, the Integrator's output carries the single
base (M1, P1) row twice — the per-key cardinality of the base key is
changed by the joins. -/
theorem c4_counterexample :
    prep_plant_data_for_material rawMarcC4 true false = .ok marcPrepC4 ∧
    prep_general_material_data rawMaraC4 "ZZMDGM" true true = .ok maraPrepC4 ∧
    prep_material_valuation rawMbewC4 = .ok mbewPrepC4 ∧
    marcPrepC4.rows.length = 1 ∧
    getVal (rowAt marcPrepC4 0) "MATNR" = some (.vStr "M1") ∧
    getVal (rowAt marcPrepC4 0) "WERKS" = some (.vStr "P1") ∧
    integratedC4.rows.length = 2 ∧
    integratedC4.rows.countP (fun r =>
      getVal r "MATNR" == some (.vStr "M1") &&
        getVal r "WERKS" == some (.vStr "P1")) = 2 :=
  ⟨rfl, rfl, rfl, by decide, by decide, by decide, by decide, by decide⟩
